import Mathlib

/-!
Verification of the opponent-set belief-tracking engine.

The definitions below are a shallow embedding of the Python modules
`set_predictor.py` and `hybrid_predictor.py`: probability distributions are
association lists `List (String × ℚ)` mirroring Python dicts (insertion order
preserved; update-in-place keeps position, new keys append), sets of strings
are `Finset String` (for `revealed_moves`) or `List String` with
insert-if-absent (for `impossible_items`, where iteration order is
irrelevant to every result we state), and Python floats are modelled as
exact rationals.
-/

/-- A probability distribution, mirroring a Python `Dict[str, float]`. -/
abbrev Distr := List (String × ℚ)

/-- Sum of the values of a distribution (`sum(d.values())`). -/
def sumD (d : Distr) : ℚ := (d.map Prod.snd).sum

/-- The keys of a distribution (`d.keys()`). -/
def keysD (d : Distr) : List String := d.map Prod.fst

/-- `d.get(k, 0.0)`: value at a key, defaulting to 0. -/
def getD (d : Distr) (k : String) : ℚ := ((d.lookup k).getD 0)

/-- `d[k] = v`: update in place if the key exists, else append. -/
def dictSet (d : Distr) (k : String) (v : ℚ) : Distr :=
  if k ∈ keysD d then d.map (fun kv => if kv.1 = k then (k, v) else kv)
  else d ++ [(k, v)]

/-- Python `dict` lookup over a static table of lists. -/
def lookupL (k : String) : List (String × List String) → Option (List String)
  | [] => none
  | kv :: rest => if kv.1 = k then some kv.2 else lookupL k rest

/-- `s.add(x)` on a Python set modelled as a duplicate-free list. -/
def addItem (l : List String) (x : String) : List String :=
  if x ∈ l then l else l ++ [x]

/-- The `for item in names: if item in probs: probs[item] *= factor` loop
pattern used by the damage-constraint and item-correlation boosts. -/
def boost_items (names : List String) (factor : ℚ) (d : Distr) : Distr :=
  d.map (fun kv => if kv.1 ∈ names then (kv.1, kv.2 * factor) else kv)

/-- Renormalize a distribution so it sums to 1, exactly as the Python code
does after boosts/eliminations: only when the current total is positive. -/
def renorm (d : Distr) : Distr :=
  if 0 < sumD d then d.map (fun kv => (kv.1, kv.2 / sumD d)) else d

/-- `SetPredictor._normalize_probs`: divide percentages by 100, then
renormalize to sum 1 when the total is positive. -/
def normalize_probs (data : Distr) : Distr :=
  if data.isEmpty then []
  else
    let probs := data.map (fun kv => (kv.1, kv.2 / 100))
    if 0 < sumD probs then probs.map (fun kv => (kv.1, kv.2 / sumD probs))
    else probs

/-- `self.non_attacking_moves` from `SetPredictor.__init__`. -/
def non_attacking_moves : List String :=
  ["Swords Dance", "Nasty Plot", "Dragon Dance", "Calm Mind", "Bulk Up",
   "Quiver Dance", "Stealth Rock", "Spikes", "Toxic Spikes", "Sticky Web",
   "Thunder Wave", "Will-O-Wisp", "Toxic", "Spore", "Sleep Powder",
   "Hypnosis", "Recover", "Roost", "Soft-Boiled", "Wish", "Synthesis",
   "Morning Sun", "Moonlight", "Protect", "Detect", "Substitute", "Taunt",
   "Encore", "Trick", "Switcheroo", "Defog", "Haze", "Whirlwind", "Roar",
   "Light Screen", "Reflect", "Tailwind", "Trick Room", "Magic Room",
   "Wonder Room", "Leech Seed", "Rest", "Sleep Talk", "Baton Pass",
   "Teleport", "Parting Shot"]

/-- The move-locking items of `_apply_move_constraints` CONSTRAINT 1. -/
def choice_items : List String := ["Choice Band", "Choice Scarf", "Choice Specs"]

/-- `move_synergies` table from `_update_correlated_moves`. -/
def move_synergies : List (String × List String) :=
  [("Swords Dance", ["Sucker Punch", "Close Combat", "Iron Head", "Earthquake"]),
   ("Nasty Plot", ["Dark Pulse", "Sludge Bomb", "Flamethrower", "Focus Blast"]),
   ("Dragon Dance", ["Outrage", "Earthquake", "Extreme Speed", "Fire Punch"]),
   ("U-turn", ["Earthquake", "Close Combat", "Stone Edge"]),
   ("Volt Switch", ["Thunderbolt", "Hidden Power", "Focus Blast"]),
   ("Stealth Rock", ["Rapid Spin", "Earthquake", "Close Combat"]),
   ("Spikes", ["Rapid Spin", "Toxic", "Protect"])]

/-- `move_item_hints` table from `_update_correlated_items`. -/
def move_item_hints : List (String × List String) :=
  [("Swords Dance", ["Leftovers", "Life Orb", "Lum Berry"]),
   ("Nasty Plot", ["Leftovers", "Life Orb", "Focus Sash"]),
   ("Dragon Dance", ["Leftovers", "Lum Berry", "Life Orb"]),
   ("U-turn", ["Choice Scarf", "Choice Band", "Heavy-Duty Boots"]),
   ("Volt Switch", ["Choice Specs", "Choice Scarf", "Heavy-Duty Boots"]),
   ("Stealth Rock", ["Leftovers", "Rocky Helmet", "Heavy-Duty Boots"]),
   ("Protect", ["Leftovers", "Black Sludge", "Sitrus Berry"])]

/-- `required_items` table from `_get_required_item`. -/
def required_items : List (String × String) :=
  [("Ogerpon-Wellspring", "Wellspring Mask"),
   ("Ogerpon-Hearthflame", "Hearthflame Mask"),
   ("Ogerpon-Cornerstone", "Cornerstone Mask"),
   ("Arceus-Fire", "Flame Plate"),
   ("Arceus-Water", "Splash Plate"),
   ("Arceus-Electric", "Zap Plate"),
   ("Silvally-Fire", "Fire Memory"),
   ("Silvally-Water", "Water Memory")]

/-- `SetPrediction` dataclass. -/
structure SetPrediction where
  pokemon : String
  revealed_moves : Finset String := ∅
  revealed_ability : Option String := none
  revealed_item : Option String := none
  revealed_tera : Option String := none
  ability_probs : Distr := []
  item_probs : Distr := []
  move_probs : Distr := []
  spread_probs : Distr := []
  tera_probs : Distr := []
  confidence : ℚ := 0
  turns_seen : ℕ := 0
  impossible_items : List String := []
deriving DecidableEq

/-- One species' Smogon moveset data as returned by
`data_manager.get_pokemon_moveset` (percentage weights per category). -/
structure MovesetData where
  abilities : Distr := []
  items : Distr := []
  moves : Distr := []
  spreads : Distr := []
  tera_types : Distr := []
deriving DecidableEq

/-- `_get_required_item`. -/
def get_required_item (pokemon_name : String) : Option String :=
  required_items.lookup pokemon_name

/-- Maximum of a dict's values (`max(d.values())` when non-empty, else the
0 used by `_calculate_confidence`). -/
def distMax : Distr → ℚ
  | [] => 0
  | kv :: rest => rest.foldl (fun acc x => max acc x.2) kv.2

/-- Revealed-fact count from `_calculate_confidence`: confirmed moves,
plus 1 if the ability is confirmed, plus 1 if the item is confirmed. -/
def revealedCount (p : SetPrediction) : ℕ :=
  p.revealed_moves.card + (if p.revealed_ability.isSome then 1 else 0) +
    (if p.revealed_item.isSome then 1 else 0)

/-- `SetPredictor._calculate_confidence`. -/
def calculate_confidence (p : SetPrediction) : ℚ :=
  let base : ℚ := (revealedCount p : ℚ) / 6
  let dc : ℚ := (distMax p.move_probs + distMax p.item_probs +
      distMax p.ability_probs) / 3
  min 1 (3/5 * base + 2/5 * dc)

/-- The AUTO-CONFIRM single-ability step of `create_initial_prediction`. -/
def auto_confirm_ability (p : SetPrediction) : SetPrediction :=
  match p.ability_probs with
  | [(a, _)] => { p with revealed_ability := some a, ability_probs := [(a, 1)] }
  | _ => p

/-- The AUTO-CONFIRM required-item (forme change) step of
`create_initial_prediction`. -/
def auto_confirm_item (p : SetPrediction) (pokemon_name : String) :
    SetPrediction :=
  match get_required_item pokemon_name with
  | some it => { p with revealed_item := some it, item_probs := [(it, 1)] }
  | none => p

/-- `SetPredictor.create_initial_prediction` (the moveset data that
`data_manager` would return is passed in explicitly; `none` models the
missing-data early return). -/
def create_initial_prediction (pokemon_name : String)
    (moveset_data : Option MovesetData) : SetPrediction :=
  match moveset_data with
  | none => { pokemon := pokemon_name }
  | some d =>
    let p : SetPrediction :=
      { pokemon := pokemon_name,
        ability_probs := normalize_probs d.abilities,
        item_probs := normalize_probs d.items,
        move_probs := normalize_probs d.moves,
        spread_probs := normalize_probs d.spreads,
        tera_probs := normalize_probs d.tera_types }
    let p1 := auto_confirm_ability p
    let p2 := auto_confirm_item p1 pokemon_name
    { p2 with confidence := calculate_confidence p2 }

/-- `SetPredictor._apply_move_constraints`. -/
def apply_move_constraints (p : SetPrediction) (move_name : String) :
    SetPrediction :=
  if p.revealed_item.isSome then p
  else
    let imp1 :=
      if 2 ≤ p.revealed_moves.card then
        addItem (addItem (addItem p.impossible_items "Choice Band")
          "Choice Scarf") "Choice Specs"
      else p.impossible_items
    let imp2 :=
      if move_name ∈ non_attacking_moves then addItem imp1 "Assault Vest"
      else imp1
    let items1 := p.item_probs.filter (fun kv => kv.1 ∉ imp2)
    { p with impossible_items := imp2, item_probs := renorm items1 }

/-- `SetPredictor._update_correlated_moves`. -/
def update_correlated_moves (p : SetPrediction) (revealed_move : String) :
    SetPrediction :=
  match lookupL revealed_move move_synergies with
  | none => p
  | some syn =>
    let mp := p.move_probs.map (fun kv =>
      if kv.1 ∈ syn ∧ kv.1 ∉ p.revealed_moves then (kv.1, kv.2 * (3/2)) else kv)
    { p with move_probs := renorm mp }

/-- `SetPredictor._update_correlated_items`. -/
def update_correlated_items (p : SetPrediction) (revealed_move : String) :
    SetPrediction :=
  if p.revealed_item.isSome then p
  else
    match lookupL revealed_move move_item_hints with
    | none => p
    | some hint =>
      { p with item_probs := renorm (boost_items hint (13/10) p.item_probs) }

/-- `SetPredictor._update_for_ability` (returns the prediction unchanged in
the source; the preference table there is dead data). -/
def update_for_ability (p : SetPrediction) (_ability : String) : SetPrediction := p

/-- `SetPredictor._update_for_item` (returns the prediction unchanged in the
source). -/
def update_for_item (p : SetPrediction) (_item : String) : SetPrediction := p

/-- `SetPredictor.update_with_move`. -/
def update_with_move (p : SetPrediction) (move_name : String) : SetPrediction :=
  let p1 := { p with
    revealed_moves := insert move_name p.revealed_moves,
    turns_seen := p.turns_seen + 1,
    move_probs := dictSet p.move_probs move_name 1 }
  let p2 := apply_move_constraints p1 move_name
  let p3 := update_correlated_moves p2 move_name
  let p4 := update_correlated_items p3 move_name
  { p4 with confidence := calculate_confidence p4 }

/-- `SetPredictor.update_with_ability`. -/
def update_with_ability (p : SetPrediction) (ability_name : String) :
    SetPrediction :=
  let p1 := { p with
    revealed_ability := some ability_name,
    turns_seen := p.turns_seen + 1,
    ability_probs := [(ability_name, 1)] }
  let p2 := update_for_ability p1 ability_name
  { p2 with confidence := calculate_confidence p2 }

/-- `SetPredictor.update_with_item`. -/
def update_with_item (p : SetPrediction) (item_name : String) : SetPrediction :=
  let p1 := { p with
    revealed_item := some item_name,
    turns_seen := p.turns_seen + 1,
    item_probs := [(item_name, 1)] }
  let p2 := update_for_item p1 item_name
  { p2 with confidence := calculate_confidence p2 }

/-- `SetPredictor._apply_damage_constraints` (also the public
`apply_damage_constraints`, which just delegates). -/
def apply_damage_constraints (p : SetPrediction)
    (took_hazard_damage healed_over_time took_recoil : Bool) : SetPrediction :=
  if p.revealed_item.isSome then p
  else
    let impItems :=
      if took_hazard_damage then
        if "Heavy-Duty Boots" ∈ p.impossible_items then
          (p.impossible_items, p.item_probs)
        else
          (p.impossible_items ++ ["Heavy-Duty Boots"],
           p.item_probs.filter (fun kv => kv.1 ≠ "Heavy-Duty Boots"))
      else (p.impossible_items, p.item_probs)
    let items1 :=
      if healed_over_time then
        boost_items ["Leftovers", "Black Sludge", "Shell Bell"] 3 impItems.2
      else impItems.2
    let items2 :=
      if took_recoil then boost_items ["Life Orb"] 2 items1 else items1
    { p with impossible_items := impItems.1, item_probs := renorm items2 }

/-- `SetPredictor.apply_ability_activation_constraint`. -/
def apply_ability_activation_constraint (p : SetPrediction)
    (ability_activated_on_switch sun_active electric_terrain_active : Bool) :
    SetPrediction :=
  if p.revealed_item.isSome then p
  else
    let isP := p.revealed_ability = some "Protosynthesis"
    let isQ := p.revealed_ability = some "Quark Drive"
    if ¬(isP ∨ isQ) then p
    else if ability_activated_on_switch then
      if isP ∧ sun_active then p
      else if isQ ∧ electric_terrain_active then p
      else if isP ∧ ¬sun_active then
        { p with revealed_item := some "Booster Energy",
                 item_probs := [("Booster Energy", 1)] }
      else if isQ ∧ ¬electric_terrain_active then
        { p with revealed_item := some "Booster Energy",
                 item_probs := [("Booster Energy", 1)] }
      else p
    else p

/-- The external ML prediction dict passed to
`HybridSetPredictor._blend_predictions` (a key absent from the Python dict
is `none` here). -/
structure MLPred where
  item : Option Distr := none
  moves : Option Distr := none
  tera : Option Distr := none
deriving DecidableEq

/-- Stable descending insertion by value, standing in for Python's stable
`sorted(..., key=value, reverse=True)` in `_blend_predictions`. -/
def insertDesc (x : String × ℚ) : Distr → Distr
  | [] => [x]
  | y :: ys => if y.2 < x.2 then x :: y :: ys else y :: insertDesc x ys

/-- Stable descending sort by value. -/
def sortDesc (l : Distr) : Distr := l.foldr insertDesc []

/-- Union of key sets as iterated by `_blend_predictions`
(`set(a) | set(b)`; Python's set iteration order is arbitrary, so we fix
the representative order: belief keys first, then new external keys). -/
def unionKeys (a b : Distr) : List String :=
  keysD a ++ (keysD b).filter (fun k => k ∉ keysD a)

/-- The item-blending block of `_blend_predictions` (skipped when the item
is already revealed or the external dict has no item entry; names in the
eliminated set are excluded before mixing). -/
def blend_item_step (bp : SetPrediction) (ml : MLPred) (ml_weight : ℚ) :
    SetPrediction :=
  match ml.item, bp.revealed_item with
  | some mlItems, none =>
    let blended : Distr :=
      ((unionKeys bp.item_probs mlItems).filter
          (fun k => k ∉ bp.impossible_items)).map
        (fun k => (k, (1 - ml_weight) * getD bp.item_probs k +
          ml_weight * getD mlItems k))
    if 0 < sumD blended then
      { bp with item_probs :=
          blended.map (fun kv => (kv.1, kv.2 / sumD blended)) }
    else bp
  | _, _ => bp

/-- The move-blending block of `_blend_predictions` (revealed moves stay at
1.0; the result is cut to the top 50 moves and is not renormalized). -/
def blend_moves_step (bp : SetPrediction) (ml : MLPred) (ml_weight : ℚ) :
    SetPrediction :=
  match ml.moves with
  | some mlMoves =>
    let blended : Distr := (unionKeys bp.move_probs mlMoves).map (fun k =>
      if k ∈ bp.revealed_moves then (k, 1)
      else (k, (1 - ml_weight) * getD bp.move_probs k +
        ml_weight * getD mlMoves k))
    { bp with move_probs := (sortDesc blended).take 50 }
  | none => bp

/-- The tera-blending block of `_blend_predictions`. -/
def blend_tera_step (bp : SetPrediction) (ml : MLPred) (ml_weight : ℚ) :
    SetPrediction :=
  match ml.tera with
  | some mlTera =>
    let blended : Distr := (unionKeys bp.tera_probs mlTera).map (fun k =>
      (k, (1 - ml_weight) * getD bp.tera_probs k + ml_weight * getD mlTera k))
    if 0 < sumD blended then
      { bp with tera_probs := blended.map (fun kv => (kv.1, kv.2 / sumD blended)) }
    else bp
  | none => bp

/-- `HybridSetPredictor._blend_predictions`. -/
def blend_predictions (bp : SetPrediction) (ml : MLPred) (ml_weight : ℚ) :
    SetPrediction :=
  blend_tera_step (blend_moves_step (blend_item_step bp ml ml_weight) ml ml_weight)
    ml ml_weight

/-- `HybridSetPredictor._calculate_ml_weight` as a function of the number of
recorded battles. -/
def calculate_ml_weight (num_battles : ℕ) : ℚ :=
  if num_battles < 50 then 0
  else if num_battles < 100 then 1/5
  else if num_battles < 200 then 2/5
  else if num_battles < 500 then 1/2
  else if num_battles < 1000 then 3/5
  else 7/10

/-- clamp(x, 0, 1), as written in the specification's confidence contract. -/
def clamp01 (x : ℚ) : ℚ := min 1 (max 0 x)

/-- The confidence formula exactly as the specification words it:
`0.6 × clamp(revealedFactCount / 6, 0, 1) + 0.4 × clamp(mean(maxProbability
of ability, item, move distributions), 0, 1)`. Stated separately from
`calculate_confidence` (the code) so the two can be compared. -/
def confidence_formula_spec (p : SetPrediction) : ℚ :=
  3/5 * clamp01 ((revealedCount p : ℚ) / 6) +
    2/5 * clamp01 ((distMax p.ability_probs + distMax p.item_probs +
      distMax p.move_probs) / 3)

/-- The mixWeight step function exactly as the claim words it: 0 for n < 50,
0.2 on [50,100), 0.4 on [100,200), 0.5 on [200,500), 0.6 on [500,1000),
0.7 for n ≥ 1000. Stated separately from `calculate_ml_weight` (the code). -/
def ml_weight_spec (n : ℕ) : ℚ :=
  if 1000 ≤ n then 7/10
  else if 500 ≤ n then 3/5
  else if 200 ≤ n then 1/2
  else if 100 ≤ n then 2/5
  else if 50 ≤ n then 1/5
  else 0

/-- Every entry of the distribution is strictly positive. -/
def PosD (d : Distr) : Prop := ∀ kv ∈ d, 0 < kv.2

instance (d : Distr) : Decidable (PosD d) :=
  List.decidableBAll (fun kv : String × ℚ => 0 < kv.2) d

/-- A non-empty distribution sums to exactly 1. -/
def SumOne (d : Distr) : Prop := d ≠ [] → sumD d = 1

/-- Prior data is valid when every usage weight is strictly positive
(Smogon usage percentages are positive by construction). -/
def ValidData : Option MovesetData → Prop
  | none => True
  | some d => PosD d.abilities ∧ PosD d.items ∧ PosD d.moves ∧
      PosD d.spreads ∧ PosD d.tera_types

/-- Belief States reachable by `create_initial_prediction` followed by any
sequence of the predictor's update operations; the second component
accumulates the set of move names observed so far. -/
inductive ReachT : SetPrediction → Finset String → Prop
  | create (name : String) (data : Option MovesetData) (hd : ValidData data) :
      ReachT (create_initial_prediction name data) ∅
  | move {p M} (m : String) : ReachT p M → ReachT (update_with_move p m) (insert m M)
  | ability {p M} (a : String) : ReachT p M → ReachT (update_with_ability p a) M
  | item {p M} (i : String) : ReachT p M → ReachT (update_with_item p i) M
  | damage {p M} (hz hl rl : Bool) : ReachT p M →
      ReachT (apply_damage_constraints p hz hl rl) M
  | activation {p M} (act sun elec : Bool) : ReachT p M →
      ReachT (apply_ability_activation_constraint p act sun elec) M

/-- The numeric invariant every reachable Belief State satisfies: all
entries positive everywhere, and the ability, item, spread and tera
distributions sum to 1 when non-empty. (The move distribution is omitted
from the sum requirement on purpose: revealing a move pins it to 1.0
without renormalizing.) -/
def INV (p : SetPrediction) : Prop :=
  PosD p.ability_probs ∧ SumOne p.ability_probs ∧
  PosD p.item_probs ∧ SumOne p.item_probs ∧
  PosD p.move_probs ∧
  PosD p.spread_probs ∧ SumOne p.spread_probs ∧
  PosD p.tera_probs ∧ SumOne p.tera_probs

theorem sumD_nil : sumD [] = 0 := rfl

theorem sumD_cons (kv : String × ℚ) (d : Distr) :
    sumD (kv :: d) = kv.2 + sumD d := by
  simp [sumD]

theorem sumD_nonneg {d : Distr} (h : ∀ kv ∈ d, 0 ≤ kv.2) : 0 ≤ sumD d := by
  induction d with
  | nil => simp [sumD]
  | cons kv rest ih =>
    rw [sumD_cons]
    have h1 := h kv (List.mem_cons_self kv rest)
    have h2 := ih (fun kv hkv => h kv (List.mem_cons_of_mem _ hkv))
    linarith

theorem sumD_pos {d : Distr} (hpos : PosD d) (hne : d ≠ []) : 0 < sumD d := by
  cases d with
  | nil => exact absurd rfl hne
  | cons kv rest =>
    rw [sumD_cons]
    have h1 := hpos kv (List.mem_cons_self kv rest)
    have h2 : 0 ≤ sumD rest :=
      sumD_nonneg (fun kv hkv => le_of_lt (hpos kv (List.mem_cons_of_mem _ hkv)))
    linarith

theorem sumD_map_div (d : Distr) (t : ℚ) :
    sumD (d.map (fun kv => (kv.1, kv.2 / t))) = sumD d / t := by
  induction d with
  | nil => simp [sumD]
  | cons kv rest ih =>
    simp only [List.map_cons, sumD_cons, ih]
    ring

theorem posD_map_preserve {d : Distr} {f : String × ℚ → String × ℚ}
    (hf : ∀ kv, 0 < kv.2 → 0 < (f kv).2) (hd : PosD d) : PosD (d.map f) := by
  intro kv hkv
  obtain ⟨kv', hkv', rfl⟩ := List.mem_map.mp hkv
  exact hf kv' (hd kv' hkv')

theorem keysD_map_preserve {d : Distr} {f : String × ℚ → String × ℚ}
    (hf : ∀ kv, (f kv).1 = kv.1) : keysD (d.map f) = keysD d := by
  simp only [keysD, List.map_map]
  congr 1
  funext kv
  exact hf kv

theorem posD_filter {d : Distr} (q : String × ℚ → Bool) (hd : PosD d) :
    PosD (d.filter q) := fun kv hkv => hd kv (List.mem_of_mem_filter hkv)

theorem posD_boost_items {d : Distr} (names : List String) {factor : ℚ}
    (hf : 0 < factor) (hd : PosD d) : PosD (boost_items names factor d) := by
  refine posD_map_preserve (fun kv hkv => ?_) hd
  split
  · positivity
  · exact hkv

theorem keysD_boost_items (names : List String) (factor : ℚ) (d : Distr) :
    keysD (boost_items names factor d) = keysD d :=
  keysD_map_preserve (fun kv => by split <;> rfl)

theorem posD_renorm {d : Distr} (hd : PosD d) : PosD (renorm d) := by
  unfold renorm
  split
  · next ht =>
    exact posD_map_preserve (fun kv hkv => div_pos hkv ht) hd
  · exact hd

theorem renorm_nil : renorm [] = [] := by simp [renorm, sumD]

theorem sumOne_renorm {d : Distr} (hd : PosD d) : SumOne (renorm d) := by
  intro hne
  unfold renorm at hne ⊢
  by_cases ht : 0 < sumD d
  · rw [if_pos ht] at hne ⊢
    rw [sumD_map_div]
    exact div_self (ne_of_gt ht)
  · rw [if_neg ht] at hne ⊢
    exact absurd (sumD_pos hd hne) ht

theorem keysD_renorm (d : Distr) : keysD (renorm d) = keysD d := by
  unfold renorm
  split
  · exact keysD_map_preserve (fun kv => rfl)
  · rfl

theorem posD_normalize_probs {data : Distr} (hd : PosD data) :
    PosD (normalize_probs data) := by
  unfold normalize_probs
  split
  · intro kv hkv; simp at hkv
  · simp only []
    split
    · next ht =>
      refine posD_map_preserve (fun kv hkv => div_pos hkv ht) ?_
      exact posD_map_preserve (fun kv hkv => by positivity) hd
    · exact posD_map_preserve (fun kv hkv => by positivity) hd

theorem sumOne_normalize_probs {data : Distr} (hd : PosD data) :
    SumOne (normalize_probs data) := by
  intro hne
  unfold normalize_probs at hne ⊢
  by_cases he : data.isEmpty
  · rw [if_pos he] at hne; exact absurd rfl hne
  · rw [if_neg he] at hne ⊢
    simp only [] at hne ⊢
    have hpos : PosD (data.map (fun kv => (kv.1, kv.2 / 100))) :=
      posD_map_preserve (fun kv hkv => by positivity) hd
    have hdne : data ≠ [] := fun h => he (by simp [h])
    have hmne : data.map (fun kv => (kv.1, kv.2 / 100)) ≠ [] := by
      simpa using hdne
    have ht : 0 < sumD (data.map (fun kv => (kv.1, kv.2 / 100))) :=
      sumD_pos hpos hmne
    rw [if_pos ht]
    rw [sumD_map_div]
    exact div_self (ne_of_gt ht)

theorem posD_nil : PosD [] := fun kv hkv => by simp at hkv

theorem sumOne_nil : SumOne [] := fun h => absurd rfl h

theorem posD_singleton_one (a : String) : PosD [(a, 1)] := by
  intro kv hkv
  simp at hkv
  rw [hkv]
  norm_num

theorem sumOne_singleton_one (a : String) : SumOne [(a, 1)] := by
  intro _
  simp [sumD]

theorem posD_dictSet {d : Distr} (k : String) {v : ℚ} (hv : 0 < v)
    (hd : PosD d) : PosD (dictSet d k v) := by
  unfold dictSet
  split
  · refine posD_map_preserve (fun kv hkv => ?_) hd
    by_cases hk : kv.1 = k
    · rw [if_pos hk]; exact hv
    · rw [if_neg hk]; exact hkv
  · intro kv hkv
    rcases List.mem_append.mp hkv with h | h
    · exact hd kv h
    · simp at h
      rw [h]
      exact hv

theorem inv_auto_confirm_ability {p : SetPrediction} (h : INV p) :
    INV (auto_confirm_ability p) := by
  obtain ⟨h1, h2, h3, h4, h5, h6, h7, h8, h9⟩ := h
  unfold auto_confirm_ability
  split
  · next a _ _ =>
    exact ⟨posD_singleton_one a, sumOne_singleton_one a, h3, h4, h5, h6, h7, h8, h9⟩
  · exact ⟨h1, h2, h3, h4, h5, h6, h7, h8, h9⟩

theorem inv_auto_confirm_item {p : SetPrediction} (name : String) (h : INV p) :
    INV (auto_confirm_item p name) := by
  obtain ⟨h1, h2, h3, h4, h5, h6, h7, h8, h9⟩ := h
  unfold auto_confirm_item
  split
  · next it _ =>
    exact ⟨h1, h2, posD_singleton_one it, sumOne_singleton_one it, h5, h6, h7, h8, h9⟩
  · exact ⟨h1, h2, h3, h4, h5, h6, h7, h8, h9⟩

theorem inv_create (name : String) (data : Option MovesetData)
    (hd : ValidData data) : INV (create_initial_prediction name data) := by
  cases data with
  | none =>
    exact ⟨posD_nil, sumOne_nil, posD_nil, sumOne_nil, posD_nil, posD_nil,
      sumOne_nil, posD_nil, sumOne_nil⟩
  | some d =>
    obtain ⟨ha, hi, hm, hs, ht⟩ := hd
    have h0 : INV
        { pokemon := name,
          ability_probs := normalize_probs d.abilities,
          item_probs := normalize_probs d.items,
          move_probs := normalize_probs d.moves,
          spread_probs := normalize_probs d.spreads,
          tera_probs := normalize_probs d.tera_types } :=
      ⟨posD_normalize_probs ha, sumOne_normalize_probs ha,
       posD_normalize_probs hi, sumOne_normalize_probs hi,
       posD_normalize_probs hm,
       posD_normalize_probs hs, sumOne_normalize_probs hs,
       posD_normalize_probs ht, sumOne_normalize_probs ht⟩
    exact inv_auto_confirm_item name (inv_auto_confirm_ability h0)

theorem inv_apply_move_constraints {p : SetPrediction} (m : String)
    (h : INV p) : INV (apply_move_constraints p m) := by
  obtain ⟨h1, h2, h3, h4, h5, h6, h7, h8, h9⟩ := h
  unfold apply_move_constraints
  split
  · exact ⟨h1, h2, h3, h4, h5, h6, h7, h8, h9⟩
  · simp only []
    refine ⟨h1, h2, posD_renorm (posD_filter _ h3),
      sumOne_renorm (posD_filter _ h3), h5, h6, h7, h8, h9⟩

theorem inv_update_correlated_moves {p : SetPrediction} (m : String)
    (h : INV p) : INV (update_correlated_moves p m) := by
  obtain ⟨h1, h2, h3, h4, h5, h6, h7, h8, h9⟩ := h
  unfold update_correlated_moves
  split
  · exact ⟨h1, h2, h3, h4, h5, h6, h7, h8, h9⟩
  · simp only []
    refine ⟨h1, h2, h3, h4,
      posD_renorm (posD_map_preserve (fun kv hkv => ?_) h5), h6, h7, h8, h9⟩
    split
    · positivity
    · exact hkv

theorem inv_update_correlated_items {p : SetPrediction} (m : String)
    (h : INV p) : INV (update_correlated_items p m) := by
  obtain ⟨h1, h2, h3, h4, h5, h6, h7, h8, h9⟩ := h
  unfold update_correlated_items
  split
  · exact ⟨h1, h2, h3, h4, h5, h6, h7, h8, h9⟩
  · split
    · exact ⟨h1, h2, h3, h4, h5, h6, h7, h8, h9⟩
    · exact ⟨h1, h2, posD_renorm (posD_boost_items _ (by norm_num) h3),
        sumOne_renorm (posD_boost_items _ (by norm_num) h3), h5, h6, h7, h8, h9⟩

theorem inv_update_with_move {p : SetPrediction} (m : String) (h : INV p) :
    INV (update_with_move p m) := by
  obtain ⟨h1, h2, h3, h4, h5, h6, h7, h8, h9⟩ := h
  have hp1 : INV { p with
      revealed_moves := insert m p.revealed_moves,
      turns_seen := p.turns_seen + 1,
      move_probs := dictSet p.move_probs m 1 } :=
    ⟨h1, h2, h3, h4, posD_dictSet m one_pos h5, h6, h7, h8, h9⟩
  exact inv_update_correlated_items m
    (inv_update_correlated_moves m (inv_apply_move_constraints m hp1))

theorem inv_update_with_ability {p : SetPrediction} (a : String) (h : INV p) :
    INV (update_with_ability p a) := by
  obtain ⟨_, _, h3, h4, h5, h6, h7, h8, h9⟩ := h
  exact ⟨posD_singleton_one a, sumOne_singleton_one a, h3, h4, h5, h6, h7, h8, h9⟩

theorem inv_update_with_item {p : SetPrediction} (i : String) (h : INV p) :
    INV (update_with_item p i) := by
  obtain ⟨h1, h2, _, _, h5, h6, h7, h8, h9⟩ := h
  exact ⟨h1, h2, posD_singleton_one i, sumOne_singleton_one i, h5, h6, h7, h8, h9⟩

theorem inv_apply_damage_constraints {p : SetPrediction} (hz hl rl : Bool)
    (h : INV p) : INV (apply_damage_constraints p hz hl rl) := by
  obtain ⟨h1, h2, h3, h4, h5, h6, h7, h8, h9⟩ := h
  unfold apply_damage_constraints
  split
  · exact ⟨h1, h2, h3, h4, h5, h6, h7, h8, h9⟩
  · simp only []
    have hbase : PosD (if hz = true then
        (if "Heavy-Duty Boots" ∈ p.impossible_items then
          (p.impossible_items, p.item_probs)
        else (p.impossible_items ++ ["Heavy-Duty Boots"],
          p.item_probs.filter (fun kv => kv.1 ≠ "Heavy-Duty Boots")))
      else (p.impossible_items, p.item_probs)).2 := by
      split
      · split
        · exact h3
        · exact posD_filter _ h3
      · exact h3
    have hheal : ∀ d : Distr, PosD d → PosD (if hl = true then
        boost_items ["Leftovers", "Black Sludge", "Shell Bell"] 3 d else d) := by
      intro d hd
      split
      · exact posD_boost_items _ (by norm_num) hd
      · exact hd
    have hrec : ∀ d : Distr, PosD d → PosD (if rl = true then
        boost_items ["Life Orb"] 2 d else d) := by
      intro d hd
      split
      · exact posD_boost_items _ (by norm_num) hd
      · exact hd
    have hfinal := hrec _ (hheal _ hbase)
    exact ⟨h1, h2, posD_renorm hfinal, sumOne_renorm hfinal, h5, h6, h7, h8, h9⟩

theorem inv_apply_ability_activation {p : SetPrediction} (act sun elec : Bool)
    (h : INV p) : INV (apply_ability_activation_constraint p act sun elec) := by
  obtain ⟨h1, h2, h3, h4, h5, h6, h7, h8, h9⟩ := h
  unfold apply_ability_activation_constraint
  have hBE : INV { p with
      revealed_item := some "Booster Energy",
      item_probs := [("Booster Energy", 1)] } :=
    ⟨h1, h2, posD_singleton_one _, sumOne_singleton_one _, h5, h6, h7, h8, h9⟩
  have hp : INV p := ⟨h1, h2, h3, h4, h5, h6, h7, h8, h9⟩
  split
  · exact hp
  · simp only []
    split
    · exact hp
    · split
      · split
        · exact hp
        · split
          · exact hp
          · split
            · exact hBE
            · split
              · exact hBE
              · exact hp
      · exact hp

theorem reach_inv {p : SetPrediction} {M : Finset String} (h : ReachT p M) :
    INV p := by
  induction h with
  | create name data hd => exact inv_create name data hd
  | move m _ ih => exact inv_update_with_move m ih
  | ability a _ ih => exact inv_update_with_ability a ih
  | item i _ ih => exact inv_update_with_item i ih
  | damage hz hl rl _ ih => exact inv_apply_damage_constraints hz hl rl ih
  | activation act sun elec _ ih => exact inv_apply_ability_activation act sun elec ih

theorem mem_addItem_of_mem {l : List String} {x : String} (y : String)
    (h : x ∈ l) : x ∈ addItem l y := by
  unfold addItem
  split
  · exact h
  · exact List.mem_append_left _ h

theorem keysD_filter_subset {d : Distr} {x : String} (q : String × ℚ → Bool)
    (h : x ∉ keysD d) : x ∉ keysD (d.filter q) := by
  intro hx
  apply h
  obtain ⟨kv, hkv, rfl⟩ := List.mem_map.mp hx
  exact List.mem_map.mpr ⟨kv, List.mem_of_mem_filter hkv, rfl⟩

theorem not_mem_keysD_filter_out {d : Distr} {bad : List String} {x : String}
    (h : x ∈ bad) : x ∉ keysD (d.filter (fun kv => kv.1 ∉ bad)) := by
  intro hx
  obtain ⟨kv, hkv, rfl⟩ := List.mem_map.mp hx
  have := List.of_mem_filter hkv
  simp at this
  exact this h

theorem apply_move_constraints_revealed_moves (p : SetPrediction) (m : String) :
    (apply_move_constraints p m).revealed_moves = p.revealed_moves := by
  unfold apply_move_constraints
  split <;> rfl

theorem apply_move_constraints_revealed_ability (p : SetPrediction) (m : String) :
    (apply_move_constraints p m).revealed_ability = p.revealed_ability := by
  unfold apply_move_constraints
  split <;> rfl

theorem apply_move_constraints_revealed_item (p : SetPrediction) (m : String) :
    (apply_move_constraints p m).revealed_item = p.revealed_item := by
  unfold apply_move_constraints
  split <;> rfl

theorem apply_move_constraints_ability_probs (p : SetPrediction) (m : String) :
    (apply_move_constraints p m).ability_probs = p.ability_probs := by
  unfold apply_move_constraints
  split <;> rfl

theorem update_correlated_moves_revealed_moves (p : SetPrediction) (m : String) :
    (update_correlated_moves p m).revealed_moves = p.revealed_moves := by
  unfold update_correlated_moves
  split <;> rfl

theorem update_correlated_moves_revealed_ability (p : SetPrediction) (m : String) :
    (update_correlated_moves p m).revealed_ability = p.revealed_ability := by
  unfold update_correlated_moves
  split <;> rfl

theorem update_correlated_moves_revealed_item (p : SetPrediction) (m : String) :
    (update_correlated_moves p m).revealed_item = p.revealed_item := by
  unfold update_correlated_moves
  split <;> rfl

theorem update_correlated_moves_item_probs (p : SetPrediction) (m : String) :
    (update_correlated_moves p m).item_probs = p.item_probs := by
  unfold update_correlated_moves
  split <;> rfl

theorem update_correlated_moves_ability_probs (p : SetPrediction) (m : String) :
    (update_correlated_moves p m).ability_probs = p.ability_probs := by
  unfold update_correlated_moves
  split <;> rfl

theorem update_correlated_moves_impossible_items (p : SetPrediction) (m : String) :
    (update_correlated_moves p m).impossible_items = p.impossible_items := by
  unfold update_correlated_moves
  split <;> rfl

theorem update_correlated_items_revealed_moves (p : SetPrediction) (m : String) :
    (update_correlated_items p m).revealed_moves = p.revealed_moves := by
  unfold update_correlated_items
  split
  · rfl
  · split <;> rfl

theorem update_correlated_items_revealed_ability (p : SetPrediction) (m : String) :
    (update_correlated_items p m).revealed_ability = p.revealed_ability := by
  unfold update_correlated_items
  split
  · rfl
  · split <;> rfl

theorem update_correlated_items_revealed_item (p : SetPrediction) (m : String) :
    (update_correlated_items p m).revealed_item = p.revealed_item := by
  unfold update_correlated_items
  split
  · rfl
  · split <;> rfl

theorem update_correlated_items_ability_probs (p : SetPrediction) (m : String) :
    (update_correlated_items p m).ability_probs = p.ability_probs := by
  unfold update_correlated_items
  split
  · rfl
  · split <;> rfl

theorem update_correlated_items_impossible_items (p : SetPrediction) (m : String) :
    (update_correlated_items p m).impossible_items = p.impossible_items := by
  unfold update_correlated_items
  split
  · rfl
  · split <;> rfl

theorem update_correlated_items_item_keys (p : SetPrediction) (m : String) :
    keysD (update_correlated_items p m).item_probs = keysD p.item_probs := by
  unfold update_correlated_items
  split
  · rfl
  · split
    · rfl
    · simp only []
      rw [keysD_renorm]
      exact keysD_map_preserve (fun kv => by split <;> rfl)

theorem update_with_move_revealed_moves (p : SetPrediction) (m : String) :
    (update_with_move p m).revealed_moves = insert m p.revealed_moves := by
  unfold update_with_move
  simp only []
  rw [update_correlated_items_revealed_moves, update_correlated_moves_revealed_moves,
    apply_move_constraints_revealed_moves]

theorem update_with_ability_revealed_moves (p : SetPrediction) (a : String) :
    (update_with_ability p a).revealed_moves = p.revealed_moves := rfl

theorem update_with_item_revealed_moves (p : SetPrediction) (i : String) :
    (update_with_item p i).revealed_moves = p.revealed_moves := rfl

theorem apply_damage_constraints_revealed_moves (p : SetPrediction)
    (hz hl rl : Bool) :
    (apply_damage_constraints p hz hl rl).revealed_moves = p.revealed_moves := by
  unfold apply_damage_constraints
  split <;> rfl

theorem apply_damage_constraints_revealed_ability (p : SetPrediction)
    (hz hl rl : Bool) :
    (apply_damage_constraints p hz hl rl).revealed_ability = p.revealed_ability := by
  unfold apply_damage_constraints
  split <;> rfl

theorem apply_damage_constraints_revealed_item (p : SetPrediction)
    (hz hl rl : Bool) :
    (apply_damage_constraints p hz hl rl).revealed_item = p.revealed_item := by
  unfold apply_damage_constraints
  split <;> rfl

theorem apply_damage_constraints_ability_probs (p : SetPrediction)
    (hz hl rl : Bool) :
    (apply_damage_constraints p hz hl rl).ability_probs = p.ability_probs := by
  unfold apply_damage_constraints
  split <;> rfl

theorem apply_ability_activation_revealed_moves (p : SetPrediction)
    (act sun elec : Bool) :
    (apply_ability_activation_constraint p act sun elec).revealed_moves =
      p.revealed_moves := by
  unfold apply_ability_activation_constraint
  split
  · rfl
  · simp only []
    split
    · rfl
    · split
      · split
        · rfl
        · split
          · rfl
          · split
            · rfl
            · split <;> rfl
      · rfl

theorem create_initial_prediction_revealed_moves (name : String)
    (data : Option MovesetData) :
    (create_initial_prediction name data).revealed_moves = ∅ := by
  cases data with
  | none => rfl
  | some d =>
    show (auto_confirm_item (auto_confirm_ability _) name).revealed_moves = ∅
    unfold auto_confirm_item
    split
    · show (auto_confirm_ability _).revealed_moves = ∅
      unfold auto_confirm_ability
      split <;> rfl
    · show (auto_confirm_ability _).revealed_moves = ∅
      unfold auto_confirm_ability
      split <;> rfl

theorem reach_revealed_moves_subset {p : SetPrediction} {M : Finset String}
    (h : ReachT p M) : p.revealed_moves ⊆ M := by
  induction h with
  | create name data hd =>
    rw [create_initial_prediction_revealed_moves]
  | move m _ ih =>
    rw [update_with_move_revealed_moves]
    exact Finset.insert_subset_insert _ ih
  | ability a _ ih => rw [update_with_ability_revealed_moves]; exact ih
  | item i _ ih => rw [update_with_item_revealed_moves]; exact ih
  | damage hz hl rl _ ih => rw [apply_damage_constraints_revealed_moves]; exact ih
  | activation act sun elec _ ih =>
    rw [apply_ability_activation_revealed_moves]; exact ih

theorem keysD_map_div (d : Distr) (t : ℚ) :
    keysD (d.map (fun kv => (kv.1, kv.2 / t))) = keysD d :=
  keysD_map_preserve (fun _ => rfl)

theorem keysD_map_pair (l : List String) (f : String → ℚ) :
    keysD (l.map (fun k => (k, f k))) = l := by
  induction l with
  | nil => rfl
  | cons a t ih =>
    simp only [keysD, List.map_cons] at ih ⊢
    rw [ih]

theorem blend_item_step_revealed_item (bp : SetPrediction) (ml : MLPred)
    (w : ℚ) : (blend_item_step bp ml w).revealed_item = bp.revealed_item := by
  unfold blend_item_step
  split
  · simp only []
    split <;> rfl
  · rfl

theorem blend_item_step_revealed_ability (bp : SetPrediction) (ml : MLPred)
    (w : ℚ) : (blend_item_step bp ml w).revealed_ability = bp.revealed_ability := by
  unfold blend_item_step
  split
  · simp only []
    split <;> rfl
  · rfl

theorem blend_item_step_ability_probs (bp : SetPrediction) (ml : MLPred)
    (w : ℚ) : (blend_item_step bp ml w).ability_probs = bp.ability_probs := by
  unfold blend_item_step
  split
  · simp only []
    split <;> rfl
  · rfl

theorem blend_item_step_impossible_items (bp : SetPrediction) (ml : MLPred)
    (w : ℚ) : (blend_item_step bp ml w).impossible_items = bp.impossible_items := by
  unfold blend_item_step
  split
  · simp only []
    split <;> rfl
  · rfl

theorem blend_item_step_item_probs_of_revealed (bp : SetPrediction)
    (ml : MLPred) (w : ℚ) (h : bp.revealed_item.isSome) :
    (blend_item_step bp ml w).item_probs = bp.item_probs := by
  unfold blend_item_step
  split
  · next heq1 heq2 =>
    rw [heq2] at h
    simp at h
  · rfl

theorem blend_moves_step_item_probs (bp : SetPrediction) (ml : MLPred)
    (w : ℚ) : (blend_moves_step bp ml w).item_probs = bp.item_probs := by
  unfold blend_moves_step
  split <;> rfl

theorem blend_moves_step_ability_probs (bp : SetPrediction) (ml : MLPred)
    (w : ℚ) : (blend_moves_step bp ml w).ability_probs = bp.ability_probs := by
  unfold blend_moves_step
  split <;> rfl

theorem blend_moves_step_impossible_items (bp : SetPrediction) (ml : MLPred)
    (w : ℚ) : (blend_moves_step bp ml w).impossible_items = bp.impossible_items := by
  unfold blend_moves_step
  split <;> rfl

theorem blend_moves_step_revealed_item (bp : SetPrediction) (ml : MLPred)
    (w : ℚ) : (blend_moves_step bp ml w).revealed_item = bp.revealed_item := by
  unfold blend_moves_step
  split <;> rfl

theorem blend_moves_step_revealed_ability (bp : SetPrediction) (ml : MLPred)
    (w : ℚ) : (blend_moves_step bp ml w).revealed_ability = bp.revealed_ability := by
  unfold blend_moves_step
  split <;> rfl

theorem blend_tera_step_item_probs (bp : SetPrediction) (ml : MLPred)
    (w : ℚ) : (blend_tera_step bp ml w).item_probs = bp.item_probs := by
  unfold blend_tera_step
  split
  · simp only []
    split <;> rfl
  · rfl

theorem blend_tera_step_ability_probs (bp : SetPrediction) (ml : MLPred)
    (w : ℚ) : (blend_tera_step bp ml w).ability_probs = bp.ability_probs := by
  unfold blend_tera_step
  split
  · simp only []
    split <;> rfl
  · rfl

theorem blend_tera_step_impossible_items (bp : SetPrediction) (ml : MLPred)
    (w : ℚ) : (blend_tera_step bp ml w).impossible_items = bp.impossible_items := by
  unfold blend_tera_step
  split
  · simp only []
    split <;> rfl
  · rfl

theorem blend_tera_step_revealed_item (bp : SetPrediction) (ml : MLPred)
    (w : ℚ) : (blend_tera_step bp ml w).revealed_item = bp.revealed_item := by
  unfold blend_tera_step
  split
  · simp only []
    split <;> rfl
  · rfl

theorem blend_tera_step_revealed_ability (bp : SetPrediction) (ml : MLPred)
    (w : ℚ) : (blend_tera_step bp ml w).revealed_ability = bp.revealed_ability := by
  unfold blend_tera_step
  split
  · simp only []
    split <;> rfl
  · rfl

theorem blend_item_step_eliminated {bp : SetPrediction} (ml : MLPred) (w : ℚ)
    {x : String} (hx : x ∈ bp.impossible_items)
    (hk : x ∉ keysD bp.item_probs) :
    x ∉ keysD (blend_item_step bp ml w).item_probs := by
  unfold blend_item_step
  split
  · simp only []
    split
    · show x ∉ keysD (List.map _ _)
      rw [keysD_map_div, keysD_map_pair]
      intro hmem
      have hf := List.of_mem_filter hmem
      simp at hf
      exact hf hx
    · exact hk
  · exact hk

theorem blend_predictions_eliminated {bp : SetPrediction} (ml : MLPred)
    (w : ℚ) {x : String} (hx : x ∈ bp.impossible_items)
    (hk : x ∉ keysD bp.item_probs) :
    x ∈ (blend_predictions bp ml w).impossible_items ∧
    x ∉ keysD (blend_predictions bp ml w).item_probs := by
  unfold blend_predictions
  rw [blend_tera_step_impossible_items, blend_moves_step_impossible_items,
    blend_item_step_impossible_items, blend_tera_step_item_probs,
    blend_moves_step_item_probs]
  exact ⟨hx, blend_item_step_eliminated ml w hx hk⟩

theorem not_mem_keysD_filter_ne {d : Distr} (y : String) :
    y ∉ keysD (d.filter (fun kv => kv.1 ≠ y)) := by
  intro hy
  obtain ⟨kv, hkv, rfl⟩ := List.mem_map.mp hy
  have := List.of_mem_filter hkv
  simp at this

theorem apply_move_constraints_eliminated {p : SetPrediction} (m : String)
    {x : String} (hx : x ∈ p.impossible_items)
    (hk : x ∉ keysD p.item_probs) :
    x ∈ (apply_move_constraints p m).impossible_items ∧
    x ∉ keysD (apply_move_constraints p m).item_probs := by
  unfold apply_move_constraints
  split
  · exact ⟨hx, hk⟩
  · simp only []
    constructor
    · split
      · apply mem_addItem_of_mem
        split
        · exact mem_addItem_of_mem _ (mem_addItem_of_mem _ (mem_addItem_of_mem _ hx))
        · exact hx
      · split
        · exact mem_addItem_of_mem _ (mem_addItem_of_mem _ (mem_addItem_of_mem _ hx))
        · exact hx
    · rw [keysD_renorm]
      apply not_mem_keysD_filter_out
      split
      · apply mem_addItem_of_mem
        split
        · exact mem_addItem_of_mem _ (mem_addItem_of_mem _ (mem_addItem_of_mem _ hx))
        · exact hx
      · split
        · exact mem_addItem_of_mem _ (mem_addItem_of_mem _ (mem_addItem_of_mem _ hx))
        · exact hx

theorem apply_damage_constraints_eliminated {p : SetPrediction}
    (hz hl rl : Bool) {x : String} (hx : x ∈ p.impossible_items)
    (hk : x ∉ keysD p.item_probs) :
    x ∈ (apply_damage_constraints p hz hl rl).impossible_items ∧
    x ∉ keysD (apply_damage_constraints p hz hl rl).item_probs := by
  unfold apply_damage_constraints
  split
  · exact ⟨hx, hk⟩
  · simp only []
    constructor
    · split
      · split
        · exact hx
        · exact List.mem_append_left _ hx
      · exact hx
    · rw [keysD_renorm]
      split
      · rw [keysD_boost_items]
        split
        · rw [keysD_boost_items]
          split
          · split
            · exact hk
            · exact keysD_filter_subset _ hk
          · exact hk
        · split
          · split
            · exact hk
            · exact keysD_filter_subset _ hk
          · exact hk
      · split
        · rw [keysD_boost_items]
          split
          · split
            · exact hk
            · exact keysD_filter_subset _ hk
          · exact hk
        · split
          · split
            · exact hk
            · exact keysD_filter_subset _ hk
          · exact hk

theorem update_with_move_eliminated {p : SetPrediction} (m : String)
    {x : String} (hx : x ∈ p.impossible_items)
    (hk : x ∉ keysD p.item_probs) :
    x ∈ (update_with_move p m).impossible_items ∧
    x ∉ keysD (update_with_move p m).item_probs := by
  unfold update_with_move
  simp only []
  rw [update_correlated_items_impossible_items,
    update_correlated_moves_impossible_items, update_correlated_items_item_keys,
    update_correlated_moves_item_probs]
  exact apply_move_constraints_eliminated m hx hk

/-- The operations claim C5 quantifies over: a move update (which runs the
move-constraint pass and both correlation reweighters), a damage-constraint
pass, and a hybrid blend. -/
inductive StepC5 : SetPrediction → SetPrediction → Prop
  | move (p : SetPrediction) (m : String) : StepC5 p (update_with_move p m)
  | damage (p : SetPrediction) (hz hl rl : Bool) :
      StepC5 p (apply_damage_constraints p hz hl rl)
  | blend (p : SetPrediction) (ml : MLPred) (w : ℚ) :
      StepC5 p (blend_predictions p ml w)

theorem stepC5_eliminated {p q : SetPrediction} (hstep : StepC5 p q)
    {x : String} (hx : x ∈ p.impossible_items)
    (hk : x ∉ keysD p.item_probs) :
    x ∈ q.impossible_items ∧ x ∉ keysD q.item_probs := by
  cases hstep with
  | move m => exact update_with_move_eliminated m hx hk
  | damage hz hl rl => exact apply_damage_constraints_eliminated hz hl rl hx hk
  | blend ml w => exact blend_predictions_eliminated ml w hx hk

/-- C5: once a name enters the eliminated (impossible-items) set of a
Belief State, no subsequent operation among move update (with its
correlation boosts), damage-constraint boost, and blend ever gives that
name positive probability in the item category again: after any sequence
of such operations the name is still eliminated and still absent from the
item distribution. -/
theorem C5_elimination_permanent {p q : SetPrediction} {x : String}
    (hseq : Relation.ReflTransGen StepC5 p q)
    (hx : x ∈ p.impossible_items) (hk : x ∉ keysD p.item_probs) :
    x ∈ q.impossible_items ∧ x ∉ keysD q.item_probs := by
  induction hseq with
  | refl => exact ⟨hx, hk⟩
  | tail _ hbc ih => exact stepC5_eliminated hbc ih.1 ih.2

/-- A concrete Belief State with Heavy-Duty Boots already eliminated. -/
def c5_state : SetPrediction :=
  { pokemon := "Gholdengo", revealed_item := none,
    item_probs := [("Leftovers", 1)], impossible_items := ["Heavy-Duty Boots"] }

/-- Witness for C5: a damage pass followed by a move update on a concrete
state keeps Heavy-Duty Boots eliminated and out of the item distribution. -/
theorem C5_elimination_permanent_witness :
    "Heavy-Duty Boots" ∈ (update_with_move
      (apply_damage_constraints c5_state true false false) "Tackle").impossible_items ∧
    "Heavy-Duty Boots" ∉ keysD (update_with_move
      (apply_damage_constraints c5_state true false false) "Tackle").item_probs :=
  C5_elimination_permanent
    (Relation.ReflTransGen.tail
      (Relation.ReflTransGen.single (StepC5.damage c5_state true false false))
      (StepC5.move _ "Tackle"))
    (by decide) (by decide)

/-- C10: when the item is already confirmed (`revealed_item` set), the
move-constraint, damage-constraint and ability-activation passes return
the Belief State completely unchanged — in particular the eliminated-items
set and the item distribution — whatever the observation flags are. -/
theorem C10_confirmed_item_frame (p : SetPrediction) (v : String)
    (h : p.revealed_item = some v) (m : String)
    (hz hl rl act sun elec : Bool) :
    apply_move_constraints p m = p ∧
    apply_damage_constraints p hz hl rl = p ∧
    apply_ability_activation_constraint p act sun elec = p := by
  have hs : p.revealed_item.isSome = true := by rw [h]; rfl
  refine ⟨?_, ?_, ?_⟩
  · unfold apply_move_constraints
    rw [if_pos hs]
  · unfold apply_damage_constraints
    rw [if_pos hs]
  · unfold apply_ability_activation_constraint
    rw [if_pos hs]

/-- A concrete Belief State with a confirmed item. -/
def c10_state : SetPrediction :=
  { pokemon := "Kingambit", revealed_item := some "Leftovers",
    item_probs := [("Leftovers", 1)] }

/-- Witness for C10 at a concrete confirmed-item state, with observations
that would otherwise eliminate items (a status move, hazard damage, an
ability activation without its condition). -/
theorem C10_confirmed_item_frame_witness :
    apply_move_constraints c10_state "Swords Dance" = c10_state ∧
    apply_damage_constraints c10_state true true true = c10_state ∧
    apply_ability_activation_constraint c10_state true false false = c10_state :=
  C10_confirmed_item_frame c10_state "Leftovers" rfl "Swords Dance"
    true true true true false false

/-- C9: the Blend Layer's mixWeight equals the claimed step function of the
cumulative battle count (0 below 50, then 0.2 / 0.4 / 0.5 / 0.6 at 50 /
100 / 200 / 500, and 0.7 from 1000 on), is monotone non-decreasing in the
count, and never exceeds 0.7. -/
theorem C9_ml_weight_step_function :
    (∀ n, calculate_ml_weight n = ml_weight_spec n) ∧
    (∀ m n, m ≤ n → calculate_ml_weight m ≤ calculate_ml_weight n) ∧
    (∀ n, calculate_ml_weight n ≤ 7/10) := by
  refine ⟨?_, ?_, ?_⟩
  · intro n
    unfold calculate_ml_weight ml_weight_spec
    split_ifs <;> first | rfl | omega
  · intro m n hmn
    unfold calculate_ml_weight
    split_ifs <;> first | omega | norm_num
  · intro n
    unfold calculate_ml_weight
    split_ifs <;> norm_num

/-- Witness for C9 at concrete battle counts. -/
theorem C9_ml_weight_step_function_witness :
    calculate_ml_weight 75 = ml_weight_spec 75 ∧
    calculate_ml_weight 75 ≤ calculate_ml_weight 600 ∧
    calculate_ml_weight 2000 ≤ 7/10 :=
  ⟨C9_ml_weight_step_function.1 75,
   C9_ml_weight_step_function.2.1 75 600 (by norm_num),
   C9_ml_weight_step_function.2.2 2000⟩

/-- C7 (amended): the confirmed-moves set of a reachable Belief State is
always a subset of the set of distinct move names observed so far — the
code enforces no cap of its own — so it never exceeds 4 moves exactly when
at most 4 distinct moves have been observed. -/
theorem C7_moves_bounded_by_observed {p : SetPrediction} {M : Finset String}
    (h : ReachT p M) :
    p.revealed_moves ⊆ M ∧ (M.card ≤ 4 → p.revealed_moves.card ≤ 4) :=
  ⟨reach_revealed_moves_subset h, fun hM =>
    le_trans (Finset.card_le_card (reach_revealed_moves_subset h)) hM⟩

/-- Witness for C7 at a concrete one-observation history. -/
theorem C7_moves_bounded_by_observed_witness :
    (update_with_move (create_initial_prediction "Blank" none)
        "Knock Off").revealed_moves ⊆ insert "Knock Off" ∅ ∧
    ((insert "Knock Off" ∅ : Finset String).card ≤ 4 →
      (update_with_move (create_initial_prediction "Blank" none)
        "Knock Off").revealed_moves.card ≤ 4) :=
  C7_moves_bounded_by_observed
    (ReachT.move "Knock Off" (ReachT.create "Blank" none True.intro))

/-- The Belief State after five distinct moves have been observed. -/
def c7_state : SetPrediction :=
  update_with_move (update_with_move (update_with_move (update_with_move
    (update_with_move (create_initial_prediction "Blank" none)
      "M1") "M2") "M3") "M4") "M5"

/-- C7 counterexample: after five distinct observed moves the reachable
state `c7_state` carries five confirmed moves, so the claimed hard bound
of 4 is violated — `update_with_move` never checks the size of the set. -/
theorem C7_counterexample :
    (∃ M : Finset String, ReachT c7_state M) ∧
    4 < c7_state.revealed_moves.card :=
  ⟨⟨insert "M5" (insert "M4" (insert "M3" (insert "M2" (insert "M1" ∅)))),
    ReachT.move "M5" (ReachT.move "M4" (ReachT.move "M3" (ReachT.move "M2"
      (ReachT.move "M1" (ReachT.create "Blank" none True.intro)))))⟩,
   by decide⟩

/-- C1 (amended): for every Belief State reachable from positive-weight
priors by create-initial-prediction and update operations, every
distribution has only non-negative entries, and the non-empty ability,
item, spread and tera distributions each sum to exactly 1; the move
distribution is exempt from the sum requirement, because revealing a move
pins it to probability 1.0 without renormalizing the others. -/
theorem C1_distribution_invariant {p : SetPrediction} {M : Finset String}
    (h : ReachT p M) :
    (∀ kv ∈ p.ability_probs, 0 ≤ kv.2) ∧ (∀ kv ∈ p.item_probs, 0 ≤ kv.2) ∧
    (∀ kv ∈ p.move_probs, 0 ≤ kv.2) ∧ (∀ kv ∈ p.spread_probs, 0 ≤ kv.2) ∧
    (∀ kv ∈ p.tera_probs, 0 ≤ kv.2) ∧
    (p.ability_probs ≠ [] → sumD p.ability_probs = 1) ∧
    (p.item_probs ≠ [] → sumD p.item_probs = 1) ∧
    (p.spread_probs ≠ [] → sumD p.spread_probs = 1) ∧
    (p.tera_probs ≠ [] → sumD p.tera_probs = 1) := by
  obtain ⟨h1, h2, h3, h4, h5, h6, h7, h8, h9⟩ := reach_inv h
  exact ⟨fun kv hkv => le_of_lt (h1 kv hkv), fun kv hkv => le_of_lt (h3 kv hkv),
    fun kv hkv => le_of_lt (h5 kv hkv), fun kv hkv => le_of_lt (h6 kv hkv),
    fun kv hkv => le_of_lt (h8 kv hkv), h2, h4, h7, h9⟩

/-- A concrete positive-weight prior table for one species. -/
def demo_data : MovesetData :=
  { abilities := [("Defiant", 60), ("Supreme Overlord", 40)],
    items := [("Leftovers", 50), ("Black Glasses", 30), ("Air Balloon", 20)],
    moves := [("Sucker Punch", 80), ("Iron Head", 60), ("Kowtow Cleave", 40)],
    spreads := [("Adamant:252/4/252", 70), ("Jolly:252/4/252", 30)],
    tera_types := [("Dark", 55), ("Flying", 45)] }

/-- A concrete reachable state: creation from `demo_data` followed by one
move reveal. -/
def demo_state : SetPrediction :=
  update_with_move (create_initial_prediction "Kingambit" (some demo_data))
    "Sucker Punch"

/-- Witness for C1 at the concrete reachable state `demo_state`. -/
theorem C1_distribution_invariant_witness :
    (∀ kv ∈ demo_state.ability_probs, 0 ≤ kv.2) ∧
    (∀ kv ∈ demo_state.item_probs, 0 ≤ kv.2) ∧
    (∀ kv ∈ demo_state.move_probs, 0 ≤ kv.2) ∧
    (∀ kv ∈ demo_state.spread_probs, 0 ≤ kv.2) ∧
    (∀ kv ∈ demo_state.tera_probs, 0 ≤ kv.2) ∧
    (demo_state.ability_probs ≠ [] → sumD demo_state.ability_probs = 1) ∧
    (demo_state.item_probs ≠ [] → sumD demo_state.item_probs = 1) ∧
    (demo_state.spread_probs ≠ [] → sumD demo_state.spread_probs = 1) ∧
    (demo_state.tera_probs ≠ [] → sumD demo_state.tera_probs = 1) :=
  C1_distribution_invariant
    (ReachT.move "Sucker Punch" (ReachT.create "Kingambit" (some demo_data)
      ⟨by decide, by decide, by decide, by decide, by decide⟩))

/-- A positive-weight prior whose move distribution will break the sum
invariant after a reveal. -/
def c1_data : MovesetData :=
  { abilities := [("Alpha", 50), ("Beta", 50)],
    moves := [("Tackle", 50), ("Quick Attack", 50)] }

/-- A reachable state whose move distribution sums to 3/2. -/
def c1_state : SetPrediction :=
  update_with_move (create_initial_prediction "TestMon" (some c1_data)) "Tackle"

/-- Projecting on other fields, `apply_move_constraints` changes nothing
but the item distribution and the eliminated set. -/
theorem apply_move_constraints_move_probs (p : SetPrediction) (m : String) :
    (apply_move_constraints p m).move_probs = p.move_probs := by
  unfold apply_move_constraints
  split <;> rfl

theorem update_correlated_items_move_probs (p : SetPrediction) (m : String) :
    (update_correlated_items p m).move_probs = p.move_probs := by
  unfold update_correlated_items
  split
  · rfl
  · split <;> rfl

theorem update_with_move_revealed_item (p : SetPrediction) (m : String) :
    (update_with_move p m).revealed_item = p.revealed_item := by
  unfold update_with_move
  simp only []
  rw [update_correlated_items_revealed_item, update_correlated_moves_revealed_item,
    apply_move_constraints_revealed_item]

theorem update_with_move_revealed_ability (p : SetPrediction) (m : String) :
    (update_with_move p m).revealed_ability = p.revealed_ability := by
  unfold update_with_move
  simp only []
  rw [update_correlated_items_revealed_ability,
    update_correlated_moves_revealed_ability,
    apply_move_constraints_revealed_ability]

theorem update_with_move_ability_probs (p : SetPrediction) (m : String) :
    (update_with_move p m).ability_probs = p.ability_probs := by
  unfold update_with_move
  simp only []
  rw [update_correlated_items_ability_probs, update_correlated_moves_ability_probs,
    apply_move_constraints_ability_probs]

theorem apply_move_constraints_item_nil {p : SetPrediction} (m : String)
    (h : p.item_probs = []) : (apply_move_constraints p m).item_probs = [] := by
  unfold apply_move_constraints
  split
  · exact h
  · simp only []
    rw [h]
    rfl

theorem update_correlated_items_item_nil {p : SetPrediction} (m : String)
    (h : p.item_probs = []) : (update_correlated_items p m).item_probs = [] := by
  unfold update_correlated_items
  split
  · exact h
  · split
    · exact h
    · simp only []
      rw [h]
      rfl

theorem update_with_move_item_nil {p : SetPrediction} (m : String)
    (h : p.item_probs = []) : (update_with_move p m).item_probs = [] := by
  unfold update_with_move
  simp only []
  apply update_correlated_items_item_nil
  rw [update_correlated_moves_item_probs]
  apply apply_move_constraints_item_nil
  exact h

theorem update_with_move_move_probs_of_no_synergy {p : SetPrediction}
    {m : String} (hsyn : lookupL m move_synergies = none) :
    (update_with_move p m).move_probs = dictSet p.move_probs m 1 := by
  unfold update_with_move
  simp only []
  rw [update_correlated_items_move_probs]
  unfold update_correlated_moves
  rw [hsyn]
  rw [apply_move_constraints_move_probs]

theorem update_with_move_confidence (p : SetPrediction) (m : String) :
    (update_with_move p m).confidence =
      calculate_confidence (update_with_move p m) := rfl

theorem auto_confirm_ability_of_two {p : SetPrediction} {x y : String × ℚ}
    {rest : Distr} (h : p.ability_probs = x :: y :: rest) :
    auto_confirm_ability p = p := by
  unfold auto_confirm_ability
  rw [h]

theorem auto_confirm_item_of_none {p : SetPrediction} {name : String}
    (h : get_required_item name = none) : auto_confirm_item p name = p := by
  unfold auto_confirm_item
  rw [h]

theorem create_two_ability_fields (name : String) (d : MovesetData)
    (hreq : get_required_item name = none) {x y : String × ℚ} {rest : Distr}
    (habs : normalize_probs d.abilities = x :: y :: rest) :
    (create_initial_prediction name (some d)).move_probs =
      normalize_probs d.moves ∧
    (create_initial_prediction name (some d)).item_probs =
      normalize_probs d.items ∧
    (create_initial_prediction name (some d)).ability_probs = x :: y :: rest ∧
    (create_initial_prediction name (some d)).revealed_item = none ∧
    (create_initial_prediction name (some d)).revealed_ability = none ∧
    (create_initial_prediction name (some d)).revealed_moves = ∅ ∧
    (create_initial_prediction name (some d)).impossible_items = [] := by
  unfold create_initial_prediction
  simp only []
  rw [auto_confirm_ability_of_two habs, auto_confirm_item_of_none hreq]
  exact ⟨rfl, rfl, habs, rfl, rfl, rfl, rfl⟩

/-- C1 counterexample: the state `c1_state` is reachable (creation plus one
move update from positive priors), its move distribution is non-empty, yet
that distribution sums to 3/2 rather than 1 — revealing "Tackle" set it to
1.0 while "Quick Attack" kept probability 1/2, with no renormalization. -/
theorem C1_counterexample :
    (∃ M : Finset String, ReachT c1_state M) ∧
    c1_state.move_probs ≠ [] ∧ sumD c1_state.move_probs ≠ 1 := by
  have hmv : normalize_probs c1_data.moves =
      [("Tackle", 1/2), ("Quick Attack", 1/2)] := by
    norm_num [c1_data, normalize_probs, sumD]
  have habs : normalize_probs c1_data.abilities =
      ("Alpha", (1/2 : ℚ)) :: ("Beta", (1/2 : ℚ)) :: [] := by
    norm_num [c1_data, normalize_probs, sumD]
  obtain ⟨hc_mv, _, _, _, _, _, _⟩ :=
    create_two_ability_fields "TestMon" c1_data (by decide) habs
  have hmoves : c1_state.move_probs = [("Tackle", 1), ("Quick Attack", 1/2)] := by
    rw [show c1_state = update_with_move
        (create_initial_prediction "TestMon" (some c1_data)) "Tackle" from rfl,
      update_with_move_move_probs_of_no_synergy (by decide), hc_mv, hmv]
    simp [dictSet, keysD]
  refine ⟨⟨insert "Tackle" ∅,
    ReachT.move "Tackle" (ReachT.create "TestMon" (some c1_data)
      ⟨by decide, by decide, by decide, by decide, by decide⟩)⟩, ?_, ?_⟩
  · rw [hmoves]
    simp
  · rw [hmoves]
    norm_num [sumD]

/-- C4 (amended): the code computes confidence as
min(1, 0.6·(revealedFactCount/6) + 0.4·mean(max probabilities)) — the cap
applies to the total and there are no inner clamps. Whenever the claimed
formula's clamps are inactive (revealed-fact count ≤ 6, each distribution
maximum in [0,1]) the code value equals the claimed formula; the score
always lies in [0,1] under those bounds; and a fresh Belief State created
with no prior data has confidence exactly 0. -/
theorem C4_confidence_amended (p : SetPrediction)
    (h6 : revealedCount p ≤ 6)
    (hm0 : 0 ≤ distMax p.move_probs) (hm1 : distMax p.move_probs ≤ 1)
    (hi0 : 0 ≤ distMax p.item_probs) (hi1 : distMax p.item_probs ≤ 1)
    (ha0 : 0 ≤ distMax p.ability_probs) (ha1 : distMax p.ability_probs ≤ 1) :
    calculate_confidence p = confidence_formula_spec p ∧
    0 ≤ calculate_confidence p ∧ calculate_confidence p ≤ 1 ∧
    (∀ name, (create_initial_prediction name none).confidence = 0) := by
  have hr6 : (revealedCount p : ℚ) ≤ 6 := by exact_mod_cast h6
  have hb0 : (0:ℚ) ≤ (revealedCount p : ℚ) / 6 := by positivity
  have hb1 : (revealedCount p : ℚ) / 6 ≤ 1 := by
    rw [div_le_one (by norm_num : (0:ℚ) < 6)]
    exact hr6
  have hd0 : (0:ℚ) ≤ (distMax p.move_probs + distMax p.item_probs +
      distMax p.ability_probs) / 3 := by
    apply div_nonneg _ (by norm_num)
    linarith
  have hd1 : (distMax p.move_probs + distMax p.item_probs +
      distMax p.ability_probs) / 3 ≤ 1 := by
    rw [div_le_one (by norm_num : (0:ℚ) < 3)]
    linarith
  have hd0s : (0:ℚ) ≤ (distMax p.ability_probs + distMax p.item_probs +
      distMax p.move_probs) / 3 := by
    apply div_nonneg _ (by norm_num)
    linarith
  have hd1s : (distMax p.ability_probs + distMax p.item_probs +
      distMax p.move_probs) / 3 ≤ 1 := by
    rw [div_le_one (by norm_num : (0:ℚ) < 3)]
    linarith
  have htot1 : 3/5 * ((revealedCount p : ℚ) / 6) +
      2/5 * ((distMax p.move_probs + distMax p.item_probs +
        distMax p.ability_probs) / 3) ≤ 1 := by linarith
  have htot0 : (0:ℚ) ≤ 3/5 * ((revealedCount p : ℚ) / 6) +
      2/5 * ((distMax p.move_probs + distMax p.item_probs +
        distMax p.ability_probs) / 3) := by linarith
  refine ⟨?_, ?_, ?_, fun name => rfl⟩
  · unfold calculate_confidence confidence_formula_spec clamp01
    simp only []
    rw [min_eq_right htot1, max_eq_right hb0, min_eq_right hb1,
      max_eq_right hd0s, min_eq_right hd1s]
    ring
  · unfold calculate_confidence
    simp only []
    exact le_min (by norm_num) htot0
  · unfold calculate_confidence
    simp only []
    exact min_le_left _ _

/-- A concrete Belief State whose clamps are inactive. -/
def c4_witness_state : SetPrediction :=
  { pokemon := "Kingambit", revealed_moves := insert "Sucker Punch" ∅,
    ability_probs := [("Defiant", 1)],
    item_probs := [("Leftovers", 1), ("Life Orb", 0)],
    move_probs := [("Sucker Punch", 1)] }

/-- Witness for C4 at a concrete in-bounds state. -/
theorem C4_confidence_amended_witness :
    calculate_confidence c4_witness_state =
      confidence_formula_spec c4_witness_state ∧
    0 ≤ calculate_confidence c4_witness_state ∧
    calculate_confidence c4_witness_state ≤ 1 ∧
    (∀ name, (create_initial_prediction name none).confidence = 0) :=
  C4_confidence_amended c4_witness_state (by decide)
    (by norm_num [c4_witness_state, distMax])
    (by norm_num [c4_witness_state, distMax])
    (by norm_num [c4_witness_state, distMax])
    (by norm_num [c4_witness_state, distMax])
    (by norm_num [c4_witness_state, distMax])
    (by norm_num [c4_witness_state, distMax])

theorem update_with_move_plain {p : SetPrediction} (m : String)
    (hsyn : lookupL m move_synergies = none) (hitem : p.item_probs = []) :
    (update_with_move p m).revealed_moves = insert m p.revealed_moves ∧
    (update_with_move p m).move_probs = dictSet p.move_probs m 1 ∧
    (update_with_move p m).item_probs = [] ∧
    (update_with_move p m).ability_probs = p.ability_probs ∧
    (update_with_move p m).revealed_ability = p.revealed_ability ∧
    (update_with_move p m).revealed_item = p.revealed_item :=
  ⟨update_with_move_revealed_moves p m,
   update_with_move_move_probs_of_no_synergy hsyn,
   update_with_move_item_nil m hitem,
   update_with_move_ability_probs p m,
   update_with_move_revealed_ability p m,
   update_with_move_revealed_item p m⟩

/-- The Belief State after seven distinct moves have been revealed from an
empty-prior creation. -/
def c4_state : SetPrediction :=
  update_with_move (update_with_move (update_with_move (update_with_move
    (update_with_move (update_with_move (update_with_move
      (create_initial_prediction "Blank" none)
        "M1") "M2") "M3") "M4") "M5") "M6") "M7"

theorem c4_state_fields :
    c4_state.revealed_moves = insert "M7" (insert "M6" (insert "M5"
      (insert "M4" (insert "M3" (insert "M2" (insert "M1" ∅)))))) ∧
    c4_state.move_probs = [("M1", 1), ("M2", 1), ("M3", 1), ("M4", 1),
      ("M5", 1), ("M6", 1), ("M7", 1)] ∧
    c4_state.item_probs = [] ∧ c4_state.ability_probs = [] ∧
    c4_state.revealed_ability = none ∧ c4_state.revealed_item = none := by
  obtain ⟨a1, b1, c1, d1, e1, f1⟩ := update_with_move_plain
    (p := create_initial_prediction "Blank" none) "M1" (by decide) rfl
  obtain ⟨a2, b2, c2, d2, e2, f2⟩ := update_with_move_plain "M2" (by decide) c1
  obtain ⟨a3, b3, c3, d3, e3, f3⟩ := update_with_move_plain "M3" (by decide) c2
  obtain ⟨a4, b4, c4, d4, e4, f4⟩ := update_with_move_plain "M4" (by decide) c3
  obtain ⟨a5, b5, c5, d5, e5, f5⟩ := update_with_move_plain "M5" (by decide) c4
  obtain ⟨a6, b6, c6, d6, e6, f6⟩ := update_with_move_plain "M6" (by decide) c5
  obtain ⟨a7, b7, c7, d7, e7, f7⟩ := update_with_move_plain "M7" (by decide) c6
  refine ⟨?_, ?_, c7, ?_, ?_, ?_⟩
  · rw [show c4_state.revealed_moves = _ from a7, a6, a5, a4, a3, a2, a1]
    rfl
  · rw [show c4_state.move_probs = _ from b7, b6, b5, b4, b3, b2, b1]
    show dictSet (dictSet (dictSet (dictSet (dictSet (dictSet (dictSet []
      "M1" 1) "M2" 1) "M3" 1) "M4" 1) "M5" 1) "M6" 1) "M7" 1 = _
    simp [dictSet, keysD]
  · rw [show c4_state.ability_probs = _ from d7, d6, d5, d4, d3, d2, d1]
    rfl
  · rw [show c4_state.revealed_ability = _ from e7, e6, e5, e4, e3, e2, e1]
    rfl
  · rw [show c4_state.revealed_item = _ from f7, f6, f5, f4, f3, f2, f1]
    rfl

/-- C4 counterexample: at the reachable state `c4_state` (seven revealed
moves) the stored confidence is 5/6 — the code caps the total only — while
the claimed formula with its inner clamp on revealedFactCount/6 gives
11/15; the two disagree. -/
theorem C4_counterexample :
    (∃ M : Finset String, ReachT c4_state M) ∧
    c4_state.confidence ≠ confidence_formula_spec c4_state := by
  obtain ⟨hrm, hmv, hit, hab, hra, hri⟩ := c4_state_fields
  refine ⟨⟨insert "M7" (insert "M6" (insert "M5" (insert "M4" (insert "M3"
      (insert "M2" (insert "M1" ∅)))))),
    ReachT.move "M7" (ReachT.move "M6" (ReachT.move "M5" (ReachT.move "M4"
      (ReachT.move "M3" (ReachT.move "M2" (ReachT.move "M1"
        (ReachT.create "Blank" none True.intro)))))))⟩, ?_⟩
  have hstored : c4_state.confidence = calculate_confidence c4_state :=
    update_with_move_confidence _ "M7"
  rw [hstored]
  unfold calculate_confidence confidence_formula_spec clamp01 revealedCount
  simp only []
  rw [hrm, hmv, hit, hab, hra, hri]
  have hcard : (insert "M7" (insert "M6" (insert "M5" (insert "M4"
      (insert "M3" (insert "M2" (insert "M1" (∅ : Finset String)))))))).card
      = 7 := by decide
  rw [hcard]
  have hdm : distMax [("M1", (1:ℚ)), ("M2", 1), ("M3", 1), ("M4", 1),
      ("M5", 1), ("M6", 1), ("M7", 1)] = 1 := by
    norm_num [distMax]
  rw [hdm]
  norm_num [distMax]

/-- C3: for a Belief State with unrevealed item whose revealed ability is
Protosynthesis or Quark Drive, an activation without the natural condition
(sun / Electric Terrain) confirms Booster Energy with probability exactly
1.0, while an activation with the condition present returns the Belief
State — in particular the item distribution — completely unchanged. -/
theorem C3_booster_energy (p : SetPrediction) (hIt : p.revealed_item = none)
    (sun elec : Bool) :
    (p.revealed_ability = some "Protosynthesis" →
      (sun = false →
        (apply_ability_activation_constraint p true sun elec).revealed_item =
          some "Booster Energy" ∧
        (apply_ability_activation_constraint p true sun elec).item_probs =
          [("Booster Energy", 1)]) ∧
      (sun = true →
        apply_ability_activation_constraint p true sun elec = p)) ∧
    (p.revealed_ability = some "Quark Drive" →
      (elec = false →
        (apply_ability_activation_constraint p true sun elec).revealed_item =
          some "Booster Energy" ∧
        (apply_ability_activation_constraint p true sun elec).item_probs =
          [("Booster Energy", 1)]) ∧
      (elec = true →
        apply_ability_activation_constraint p true sun elec = p)) := by
  constructor
  · intro hab
    constructor
    · intro hsun
      subst hsun
      simp [apply_ability_activation_constraint, hIt, hab]
    · intro hsun
      subst hsun
      simp [apply_ability_activation_constraint, hIt, hab]
  · intro hab
    constructor
    · intro helec
      subst helec
      simp [apply_ability_activation_constraint, hIt, hab]
    · intro helec
      subst helec
      simp [apply_ability_activation_constraint, hIt, hab]

/-- A Paradox creature with a revealed dual-path ability and open item. -/
def c3_state : SetPrediction :=
  { pokemon := "Roaring Moon", revealed_ability := some "Protosynthesis",
    item_probs := [("Booster Energy", 1), ("Choice Band", 0)] }

/-- Witness for C3 at a concrete state with the condition absent. -/
theorem C3_booster_energy_witness :
    ((c3_state.revealed_ability = some "Protosynthesis" →
      (false = false →
        (apply_ability_activation_constraint c3_state true false false).revealed_item =
          some "Booster Energy" ∧
        (apply_ability_activation_constraint c3_state true false false).item_probs =
          [("Booster Energy", 1)]) ∧
      (false = true →
        apply_ability_activation_constraint c3_state true false false = c3_state)) ∧
    (c3_state.revealed_ability = some "Quark Drive" →
      (false = false →
        (apply_ability_activation_constraint c3_state true false false).revealed_item =
          some "Booster Energy" ∧
        (apply_ability_activation_constraint c3_state true false false).item_probs =
          [("Booster Energy", 1)]) ∧
      (false = true →
        apply_ability_activation_constraint c3_state true false false = c3_state))) :=
  C3_booster_energy c3_state rfl false false

/-- C6: once a singleton category (item or ability) is confirmed at
{value: 1.0}, the reweighting operations (item-correlation boost,
damage-constraint boost) and the blend all leave that category's
distribution unchanged at {value: 1.0}. -/
theorem C6_confirmed_singleton_terminal (p : SetPrediction) (v a : String) :
    (p.revealed_item = some v → p.item_probs = [(v, 1)] →
      ∀ (m : String) (hz hl rl : Bool) (ml : MLPred) (w : ℚ),
        (update_correlated_items p m).item_probs = [(v, 1)] ∧
        (apply_damage_constraints p hz hl rl).item_probs = [(v, 1)] ∧
        (blend_predictions p ml w).item_probs = [(v, 1)]) ∧
    (p.revealed_ability = some a → p.ability_probs = [(a, 1)] →
      ∀ (m : String) (hz hl rl : Bool) (ml : MLPred) (w : ℚ),
        (update_correlated_items p m).ability_probs = [(a, 1)] ∧
        (apply_damage_constraints p hz hl rl).ability_probs = [(a, 1)] ∧
        (blend_predictions p ml w).ability_probs = [(a, 1)]) := by
  constructor
  · intro hrev hdist m hz hl rl ml w
    have hs : p.revealed_item.isSome = true := by rw [hrev]; rfl
    refine ⟨?_, ?_, ?_⟩
    · unfold update_correlated_items
      rw [if_pos hs]
      exact hdist
    · unfold apply_damage_constraints
      rw [if_pos hs]
      exact hdist
    · unfold blend_predictions
      rw [blend_tera_step_item_probs, blend_moves_step_item_probs,
        blend_item_step_item_probs_of_revealed _ _ _ hs]
      exact hdist
  · intro _ hdist m hz hl rl ml w
    refine ⟨?_, ?_, ?_⟩
    · rw [update_correlated_items_ability_probs]
      exact hdist
    · rw [apply_damage_constraints_ability_probs]
      exact hdist
    · unfold blend_predictions
      rw [blend_tera_step_ability_probs, blend_moves_step_ability_probs,
        blend_item_step_ability_probs]
      exact hdist

/-- A Belief State with both singleton categories confirmed. -/
def c6_state : SetPrediction :=
  { pokemon := "Heatran", revealed_item := some "Leftovers",
    revealed_ability := some "Flash Fire",
    item_probs := [("Leftovers", 1)], ability_probs := [("Flash Fire", 1)] }

/-- Witness for C6 at a concrete confirmed state under a correlation boost
(on a hint-bearing move), a damage boost, and a blend. -/
theorem C6_confirmed_singleton_terminal_witness :
    (update_correlated_items c6_state "U-turn").item_probs = [("Leftovers", 1)] ∧
    (apply_damage_constraints c6_state true true true).item_probs =
      [("Leftovers", 1)] ∧
    (blend_predictions c6_state { item := some [("Choice Band", 1)] }
      (1/2)).item_probs = [("Leftovers", 1)] ∧
    (update_correlated_items c6_state "U-turn").ability_probs =
      [("Flash Fire", 1)] ∧
    (apply_damage_constraints c6_state true true true).ability_probs =
      [("Flash Fire", 1)] ∧
    (blend_predictions c6_state { item := some [("Choice Band", 1)] }
      (1/2)).ability_probs = [("Flash Fire", 1)] := by
  obtain ⟨h1, h2⟩ := C6_confirmed_singleton_terminal c6_state "Leftovers" "Flash Fire"
  obtain ⟨hi1, hi2, hi3⟩ :=
    h1 rfl rfl "U-turn" true true true { item := some [("Choice Band", 1)] } (1/2)
  obtain ⟨ha1, ha2, ha3⟩ :=
    h2 rfl rfl "U-turn" true true true { item := some [("Choice Band", 1)] } (1/2)
  exact ⟨hi1, hi2, hi3, ha1, ha2, ha3⟩

/-- C8: with the item unrevealed, an observation of full entry-hazard
damage on switch-in puts Heavy-Duty Boots into the eliminated set and
leaves it absent from the renormalized item distribution, whatever the
other damage flags are. -/
theorem C8_hazard_eliminates_boots (p : SetPrediction)
    (hIt : p.revealed_item = none)
    (hclean : "Heavy-Duty Boots" ∈ p.impossible_items →
      "Heavy-Duty Boots" ∉ keysD p.item_probs) (hl rl : Bool) :
    "Heavy-Duty Boots" ∈
      (apply_damage_constraints p true hl rl).impossible_items ∧
    "Heavy-Duty Boots" ∉
      keysD (apply_damage_constraints p true hl rl).item_probs := by
  unfold apply_damage_constraints
  rw [if_neg (by simp [hIt])]
  simp only []
  by_cases hmem : "Heavy-Duty Boots" ∈ p.impossible_items
  · rw [if_pos trivial, if_pos hmem]
    refine ⟨hmem, ?_⟩
    rw [keysD_renorm]
    split
    · rw [keysD_boost_items]
      split
      · rw [keysD_boost_items]
        exact hclean hmem
      · exact hclean hmem
    · split
      · rw [keysD_boost_items]
        exact hclean hmem
      · exact hclean hmem
  · rw [if_pos trivial, if_neg hmem]
    refine ⟨List.mem_append_right _ (by simp), ?_⟩
    rw [keysD_renorm]
    split
    · rw [keysD_boost_items]
      split
      · rw [keysD_boost_items]
        exact not_mem_keysD_filter_ne _
      · exact not_mem_keysD_filter_ne _
    · split
      · rw [keysD_boost_items]
        exact not_mem_keysD_filter_ne _
      · exact not_mem_keysD_filter_ne _

/-- A Belief State whose item distribution still carries the boots. -/
def c8_state : SetPrediction :=
  { pokemon := "Iron Valiant",
    item_probs := [("Heavy-Duty Boots", 1), ("Booster Energy", 0)] }

/-- Witness for C8 at a concrete state taking hazard damage. -/
theorem C8_hazard_eliminates_boots_witness :
    "Heavy-Duty Boots" ∈
      (apply_damage_constraints c8_state true false false).impossible_items ∧
    "Heavy-Duty Boots" ∉
      keysD (apply_damage_constraints c8_state true false false).item_probs :=
  C8_hazard_eliminates_boots c8_state rfl (by decide) false false

theorem lookupL_mem {k : String} {l : List String} :
    ∀ {t : List (String × List String)}, lookupL k t = some l → (k, l) ∈ t := by
  intro t
  induction t with
  | nil => intro h; simp [lookupL] at h
  | cons kv rest ih =>
    intro h
    unfold lookupL at h
    split at h
    · next heq =>
      have hkl : kv = (k, l) := by
        obtain ⟨k0, l0⟩ := kv
        simp at heq
        simp at h
        rw [heq, h]
      rw [hkl] at *
      exact List.mem_cons_self _ _
    · exact List.mem_cons_of_mem _ (ih h)

theorem move_item_hints_no_BC :
    ∀ kv ∈ move_item_hints, "B" ∉ kv.2 ∧ "C" ∉ kv.2 := by decide

theorem map_div_one (d : Distr) : d.map (fun kv => (kv.1, kv.2 / 1)) = d := by
  induction d with
  | nil => rfl
  | cons kv rest ih => simp [ih, div_one]

theorem renorm_of_sumD_one {d : Distr} (h : sumD d = 1) : renorm d = d := by
  unfold renorm
  rw [h, if_pos (by norm_num : (0:ℚ) < 1)]
  exact map_div_one d

theorem renorm_pair {b c : ℚ} (x y : String) (hb : 0 < b) (hc : 0 < c) :
    renorm [(x, b), (y, c)] = [(x, b / (b + c)), (y, c / (b + c))] := by
  have hsum : sumD [(x, b), (y, c)] = b + c := by
    simp [sumD]
  unfold renorm
  rw [hsum, if_pos (by linarith)]
  rfl

theorem renorm_triple {x b c : ℚ} (A B C : String) (hx : 0 < x) (hb : 0 < b)
    (hc : 0 < c) :
    renorm [(A, x), (B, b), (C, c)] = [(A, x / (x + b + c)),
      (B, b / (x + b + c)), (C, c / (x + b + c))] := by
  have hsum : sumD [(A, x), (B, b), (C, c)] = x + b + c := by
    simp [sumD]
    ring
  unfold renorm
  rw [hsum, if_pos (by linarith)]
  rfl

theorem update_correlated_items_item_probs_eq (p : SetPrediction) (m : String) :
    (update_correlated_items p m).item_probs =
      if p.revealed_item.isSome then p.item_probs
      else
        match lookupL m move_item_hints with
        | none => p.item_probs
        | some hint => renorm (boost_items hint (13/10) p.item_probs) := by
  unfold update_correlated_items
  split
  · rfl
  · split <;> rfl

theorem update_with_move_item_stage (p : SetPrediction) (m : String) :
    (update_with_move p m).item_probs =
      (update_correlated_items (apply_move_constraints { p with
        revealed_moves := insert m p.revealed_moves,
        turns_seen := p.turns_seen + 1,
        move_probs := dictSet p.move_probs m 1 } m) m).item_probs := by
  unfold update_with_move
  simp only []
  rw [update_correlated_items_item_probs_eq, update_correlated_items_item_probs_eq,
    update_correlated_moves_revealed_item, update_correlated_moves_item_probs]

theorem update_with_move_impossible_stage (p : SetPrediction) (m : String) :
    (update_with_move p m).impossible_items =
      (apply_move_constraints { p with
        revealed_moves := insert m p.revealed_moves,
        turns_seen := p.turns_seen + 1,
        move_probs := dictSet p.move_probs m 1 } m).impossible_items := by
  unfold update_with_move
  simp only []
  rw [update_correlated_items_impossible_items,
    update_correlated_moves_impossible_items]

theorem apply_move_constraints_first_move {p : SetPrediction} {m : String}
    (hrev : p.revealed_item = none) (hcard : ¬ 2 ≤ p.revealed_moves.card)
    (hm : m ∉ non_attacking_moves) (himp : p.impossible_items = [])
    (hsum : sumD p.item_probs = 1) :
    (apply_move_constraints p m).item_probs = p.item_probs ∧
    (apply_move_constraints p m).impossible_items = [] := by
  unfold apply_move_constraints
  rw [if_neg (by simp [hrev])]
  simp only []
  rw [if_neg hcard, if_neg hm, himp]
  constructor
  · show renorm (p.item_probs.filter _) = _
    rw [show p.item_probs.filter
        (fun kv => kv.1 ∉ ([] : List String)) = p.item_probs by simp]
    exact renorm_of_sumD_one hsum
  · rfl

theorem apply_move_constraints_second_move {p : SetPrediction} {m A : String}
    {x b c : ℚ} (hrev : p.revealed_item = none)
    (hcard : 2 ≤ p.revealed_moves.card) (hm : m ∉ non_attacking_moves)
    (himp : p.impossible_items = [])
    (hA : A = "Choice Band" ∨ A = "Choice Scarf" ∨ A = "Choice Specs")
    (hitems : p.item_probs = [(A, x), ("B", b), ("C", c)])
    (hb : 0 < b) (hc : 0 < c) :
    (apply_move_constraints p m).item_probs =
      [("B", b / (b + c)), ("C", c / (b + c))] := by
  unfold apply_move_constraints
  rw [if_neg (by simp [hrev])]
  simp only []
  rw [if_pos hcard, if_neg hm, himp, hitems]
  rcases hA with rfl | rfl | rfl <;>
  · rw [show List.filter _ [(_, x), ("B", b), ("C", c)] = [("B", b), ("C", c)]
      from by simp [addItem]]
    exact renorm_pair "B" "C" hb hc

theorem update_correlated_items_ratio {p : SetPrediction} (m : String)
    {A : String} {x b c : ℚ} (hrev : p.revealed_item = none)
    (hitems : p.item_probs = [(A, x), ("B", b), ("C", c)])
    (hx : 0 < x) (hb : 0 < b) (hc : 0 < c) :
    ∃ x2 t : ℚ, 0 < x2 ∧ 0 < t ∧
      (update_correlated_items p m).item_probs =
        [(A, x2), ("B", b / t), ("C", c / t)] := by
  rw [update_correlated_items_item_probs_eq, if_neg (by simp [hrev])]
  rcases hlk : lookupL m move_item_hints with _ | hint
  · refine ⟨x, 1, hx, one_pos, ?_⟩
    show p.item_probs = _
    rw [hitems]
    simp [div_one]
  · obtain ⟨hB0, hC0⟩ := move_item_hints_no_BC _ (lookupL_mem hlk)
    have hB : "B" ∉ hint := hB0
    have hC : "C" ∉ hint := hC0
    show ∃ x2 t, 0 < x2 ∧ 0 < t ∧
      renorm (boost_items hint (13/10) p.item_probs) =
        [(A, x2), ("B", b / t), ("C", c / t)]
    rw [hitems]
    by_cases hAh : A ∈ hint
    · have hx2 : (0:ℚ) < x * (13/10) := by positivity
      refine ⟨x * (13/10) / (x * (13/10) + b + c), x * (13/10) + b + c,
        div_pos hx2 (by linarith), by linarith, ?_⟩
      rw [show boost_items hint (13/10) [(A, x), ("B", b), ("C", c)] =
          [(A, x * (13/10)), ("B", b), ("C", c)] from
          by simp [boost_items, hAh, hB, hC]]
      exact renorm_triple A "B" "C" hx2 hb hc
    · refine ⟨x / (x + b + c), x + b + c, div_pos hx (by linarith),
        by linarith, ?_⟩
      rw [show boost_items hint (13/10) [(A, x), ("B", b), ("C", c)] =
          [(A, x), ("B", b), ("C", c)] from
          by simp [boost_items, hAh, hB, hC]]
      exact renorm_triple A "B" "C" hx hb hc

theorem update_correlated_items_BC {p : SetPrediction} (m : String)
    (hrev : p.revealed_item = none)
    (hitems : p.item_probs = [("B", 3/5), ("C", 2/5)]) :
    (update_correlated_items p m).item_probs = [("B", 3/5), ("C", 2/5)] := by
  rw [update_correlated_items_item_probs_eq, if_neg (by simp [hrev])]
  rcases hlk : lookupL m move_item_hints with _ | hint
  · exact hitems
  · obtain ⟨hB0, hC0⟩ := move_item_hints_no_BC _ (lookupL_mem hlk)
    have hB : "B" ∉ hint := hB0
    have hC : "C" ∉ hint := hC0
    show renorm (boost_items hint (13/10) p.item_probs) = _
    rw [hitems]
    rw [show boost_items hint (13/10) [("B", (3:ℚ)/5), ("C", 2/5)] =
        [("B", 3/5), ("C", 2/5)] from by simp [boost_items, hB, hC]]
    exact renorm_of_sumD_one (by norm_num [sumD])

/-- The C2 scenario prior: item weights {A: 50, B: 30, C: 20} and two
abilities (so nothing is auto-confirmed at creation). -/
def c2_data (A : String) : MovesetData :=
  { abilities := [("Alpha", 50), ("Beta", 50)],
    items := [(A, 50), ("B", 30), ("C", 20)] }

/-- C2: from an item prior {A: 50, B: 30, C: 20} where A is one of the
move-locking Choice items, after two distinct damaging (non-status) moves
are used the Choice item is removed and the item distribution is exactly
{B: 0.6, C: 0.4} — the original 30:20 ratio renormalized — whatever the
two moves are. -/
theorem C2_choice_elimination (A m1 m2 : String)
    (hA : A = "Choice Band" ∨ A = "Choice Scarf" ∨ A = "Choice Specs")
    (h12 : m1 ≠ m2)
    (hm1 : m1 ∉ non_attacking_moves) (hm2 : m2 ∉ non_attacking_moves) :
    (update_with_move (update_with_move (create_initial_prediction "TestMon"
      (some (c2_data A))) m1) m2).item_probs = [("B", 3/5), ("C", 2/5)] := by
  have habs : normalize_probs (c2_data A).abilities =
      ("Alpha", (1/2 : ℚ)) :: ("Beta", (1/2 : ℚ)) :: [] := by
    norm_num [c2_data, normalize_probs, sumD]
  have hit0 : normalize_probs (c2_data A).items =
      [(A, 1/2), ("B", 3/10), ("C", 1/5)] := by
    norm_num [c2_data, normalize_probs, sumD]
  set P0 := create_initial_prediction "TestMon" (some (c2_data A)) with hP0def
  obtain ⟨_, hP0it0, _, hP0ri, _, hP0rm, hP0imp⟩ :=
    create_two_ability_fields "TestMon" (c2_data A) (by decide) habs
  rw [← hP0def] at hP0it0 hP0ri hP0rm hP0imp
  have hP0it : P0.item_probs = [(A, 1/2), ("B", 3/10), ("C", 1/5)] := by
    rw [hP0it0, hit0]
  -- first update
  have hstage1 := update_with_move_item_stage P0 m1
  have himps1 := update_with_move_impossible_stage P0 m1
  set p1 : SetPrediction := { P0 with
    revealed_moves := insert m1 P0.revealed_moves,
    turns_seen := P0.turns_seen + 1,
    move_probs := dictSet P0.move_probs m1 1 } with hp1def
  have hp1ri : p1.revealed_item = none := hP0ri
  have hp1imp : p1.impossible_items = [] := hP0imp
  have hp1it : p1.item_probs = [(A, 1/2), ("B", 3/10), ("C", 1/5)] := hP0it
  have hp1card : ¬ 2 ≤ p1.revealed_moves.card := by
    show ¬ 2 ≤ (insert m1 P0.revealed_moves).card
    rw [hP0rm]
    simp
  obtain ⟨hc1it, hc1imp⟩ := apply_move_constraints_first_move hp1ri hp1card hm1
    hp1imp (by rw [hp1it]; norm_num [sumD])
  have hq2ri : (apply_move_constraints p1 m1).revealed_item = none := by
    rw [apply_move_constraints_revealed_item]
    exact hp1ri
  have hq2it : (apply_move_constraints p1 m1).item_probs =
      [(A, 1/2), ("B", 3/10), ("C", 1/5)] := by
    rw [hc1it, hp1it]
  obtain ⟨x2, t1, hx2, ht1, hq3it⟩ := update_correlated_items_ratio m1 hq2ri
    hq2it (by norm_num) (by norm_num) (by norm_num)
  have hQ1it : (update_with_move P0 m1).item_probs =
      [(A, x2), ("B", (3/10)/t1), ("C", (1/5)/t1)] := by
    rw [hstage1, hq3it]
  have hQ1ri : (update_with_move P0 m1).revealed_item = none := by
    rw [update_with_move_revealed_item]
    exact hP0ri
  have hQ1rm : (update_with_move P0 m1).revealed_moves = insert m1 ∅ := by
    rw [update_with_move_revealed_moves, hP0rm]
  have hQ1imp : (update_with_move P0 m1).impossible_items = [] := by
    rw [himps1, hc1imp]
  -- second update
  set Q1 := update_with_move P0 m1 with hQ1def
  have hstage2 := update_with_move_item_stage Q1 m2
  set p2 : SetPrediction := { Q1 with
    revealed_moves := insert m2 Q1.revealed_moves,
    turns_seen := Q1.turns_seen + 1,
    move_probs := dictSet Q1.move_probs m2 1 } with hp2def
  have hp2ri : p2.revealed_item = none := hQ1ri
  have hp2imp : p2.impossible_items = [] := hQ1imp
  have hp2it : p2.item_probs = [(A, x2), ("B", (3/10)/t1), ("C", (1/5)/t1)] :=
    hQ1it
  have hp2card : 2 ≤ p2.revealed_moves.card := by
    show 2 ≤ (insert m2 Q1.revealed_moves).card
    rw [hQ1rm, Finset.card_insert_of_not_mem (by
      simp only [Finset.mem_insert, Finset.not_mem_empty, or_false]
      exact fun h => h12 h.symm)]
    simp
  have hb1 : (0:ℚ) < (3/10)/t1 := div_pos (by norm_num) ht1
  have hc1 : (0:ℚ) < (1/5)/t1 := div_pos (by norm_num) ht1
  have h2nd := apply_move_constraints_second_move hp2ri hp2card hm2 hp2imp hA
    hp2it hb1 hc1
  have ht1' : t1 ≠ 0 := ne_of_gt ht1
  have harith1 : ((3:ℚ)/10)/t1 / ((3/10)/t1 + (1/5)/t1) = 3/5 := by
    field_simp
    ring
  have harith2 : ((1:ℚ)/5)/t1 / ((3/10)/t1 + (1/5)/t1) = 2/5 := by
    field_simp
    ring
  have hq4it : (apply_move_constraints p2 m2).item_probs =
      [("B", 3/5), ("C", 2/5)] := by
    rw [h2nd, harith1, harith2]
  have hq4ri : (apply_move_constraints p2 m2).revealed_item = none := by
    rw [apply_move_constraints_revealed_item]
    exact hp2ri
  rw [hstage2]
  exact update_correlated_items_BC m2 hq4ri hq4it

/-- Witness for C2 with A = Choice Band and the damaging moves Tackle and
Scratch. -/
theorem C2_choice_elimination_witness :
    (update_with_move (update_with_move (create_initial_prediction "TestMon"
      (some (c2_data "Choice Band"))) "Tackle") "Scratch").item_probs =
      [("B", 3/5), ("C", 2/5)] :=
  C2_choice_elimination "Choice Band" "Tackle" "Scratch" (Or.inl rfl)
    (by decide) (by decide) (by decide)
